import Mathlib

/-!
Verification of the MCP tool-dispatch layer of this repository.

The Python sources embedded here are:
  - `src/mongodb_db.py`   (MongoDB backing operation functions)
  - `src/postgres_db.py`  (PostgreSQL backing operation functions)
  - `src/google_gmail.py`, `src/google_sheets.py`, `src/google_calendar.py`
                          (Google-service backing operation functions)
  - `src/mongodb_mcp.py`, `src/postgres_mcp.py`, `src/mcp_server.py`
                          (the three MCP servers: tool registries and dispatchers)

Modelling conventions (shallow embedding):
  - Python/JSON dynamic values are the inductive type `JVal`.  Python `None`
    is `JVal.null`; a BSON ObjectId is `JVal.oid`; dicts are insertion-ordered
    association lists, matching Python dict semantics.
  - A raised (and not yet caught) Python exception is `Except.error msg`
    with `msg = str(exception)`.  A `try: ... except Exception as e:
    return {"success": False, "error": str(e)}` block is `wrapOp body`
    where `body : Except String JVal` mirrors the `try` block.
  - Calls into external client libraries (pymongo, psycopg2, googleapiclient,
    `json.loads` on non-trivial strings, base64 decoding, clock reads) are
    fields of backend-oracle structures (`MongoBackend`, `PgBackend`,
    `GoogleBackend`); each such call either returns data or raises.
  - The MCP transport serialization (`[TextContent(text=json.dumps(...))]`)
    is dropped: a dispatcher returns the result dictionary itself.
-/

/-- Dynamic Python/JSON/BSON values. -/
inductive JVal where
  | null : JVal
  | bool (b : Bool) : JVal
  | num (n : Int) : JVal
  | str (s : String) : JVal
  | oid (s : String) : JVal
  | arr (elems : List JVal) : JVal
  | obj (fields : List (String × JVal)) : JVal

mutual

/-- Structural (Python `==`-style) equality on `JVal`. -/
def JVal.beq : JVal → JVal → Bool
  | .null, .null => true
  | .bool a, .bool b => a == b
  | .num a, .num b => a == b
  | .str a, .str b => a == b
  | .oid a, .oid b => a == b
  | .arr a, .arr b => JVal.beqList a b
  | .obj a, .obj b => JVal.beqObj a b
  | _, _ => false

def JVal.beqList : List JVal → List JVal → Bool
  | [], [] => true
  | x :: xs, y :: ys => JVal.beq x y && JVal.beqList xs ys
  | _, _ => false

def JVal.beqObj : List (String × JVal) → List (String × JVal) → Bool
  | [], [] => true
  | (k, v) :: xs, (l, w) :: ys => k == l && JVal.beq v w && JVal.beqObj xs ys
  | _, _ => false

end

instance : BEq JVal := ⟨JVal.beq⟩

/-- Python truthiness (`if x:`): `None`, `False`, `0`, `""`, `[]`, `{}` are falsy. -/
def truthy : JVal → Bool
  | .null => false
  | .bool b => b
  | .num n => n != 0
  | .str s => !(s == "")
  | .oid _ => true
  | .arr xs => !xs.isEmpty
  | .obj kvs => !kvs.isEmpty

/-- Field lookup in a result dictionary (observer used by the theorems). -/
def getField (v : JVal) (k : String) : Option JVal :=
  match v with
  | .obj kvs => kvs.lookup k
  | _ => none

/-- Python dict assignment `d[k] = v`: replace in place, or append if absent. -/
def setKey : List (String × JVal) → String → JVal → List (String × JVal)
  | [], k, v => [(k, v)]
  | (k', v') :: rest, k, v =>
      if k' = k then (k, v) :: rest else (k', v') :: setKey rest k v

/-- Python type name, for AttributeError / TypeError messages. -/
def pyTypeName : JVal → String
  | .null => "NoneType"
  | .bool _ => "bool"
  | .num _ => "int"
  | .str _ => "str"
  | .oid _ => "ObjectId"
  | .arr _ => "list"
  | .obj _ => "dict"

/-- Python `str(x)` for the values that reach it in this code (scalars and
ObjectIds; the container cases are never exercised by any claim). -/
def pyStr : JVal → String
  | .null => "None"
  | .bool true => "True"
  | .bool false => "False"
  | .num n => toString n
  | .str s => s
  | .oid s => s
  | .arr _ => "<list>"
  | .obj _ => "<dict>"

/-- Characters removed by Python `str.strip()`. -/
def isPyWs (c : Char) : Bool :=
  c = ' ' || c = '\t' || c = '\n' || c = '\r' || c = '\x0b' || c = '\x0c'

/-- Python `str.strip()`. -/
def pyStrip (s : String) : String :=
  String.mk (((s.data.dropWhile isPyWs).reverse.dropWhile isPyWs).reverse)

/-- The uniform failure dictionary produced by every `except` clause:
`\x7b"success": False, "error": str(e)\x7d`. -/
def errDict (e : String) : JVal :=
  .obj [("success", .bool false), ("error", .str e)]

/-- A whole-function `try/except Exception` wrapper: an uncaught exception
becomes the uniform failure dictionary. -/
def wrapOp : Except String JVal → JVal
  | .ok v => v
  | .error e => errDict e

/-- The OperationResult shape: a dictionary with a boolean `success` field,
and a string `error` field whenever `success` is false. -/
def isOpResult (v : JVal) : Bool :=
  match v with
  | .obj kvs =>
      match kvs.lookup "success" with
      | some (.bool true) => true
      | some (.bool false) =>
          match kvs.lookup "error" with
          | some (.str _) => true
          | _ => false
      | _ => false
  | _ => false

/-- Python `d[k]` on a dynamic value: KeyError (whose `str` is the quoted
key) on a dict without the key, TypeError on a non-dict. -/
def getItemDyn (v : JVal) (k : String) : Except String JVal :=
  match v with
  | .obj kvs =>
      match kvs.lookup k with
      | some x => .ok x
      | none => .error ("\x27" ++ k ++ "\x27")
  | w => .error ("\x27" ++ pyTypeName w ++ "\x27 object is not subscriptable")

/-- Python `d.get(k, default)` on a dynamic value: AttributeError on a non-dict. -/
def pyGet (v : JVal) (k : String) (d : JVal) : Except String JVal :=
  match v with
  | .obj kvs => .ok ((kvs.lookup k).getD d)
  | w => .error ("\x27" ++ pyTypeName w ++ "\x27 object has no attribute \x27get\x27")

/-- Python `d[k] = x` on a dynamic value. -/
def setItem (v : JVal) (k : String) (x : JVal) : Except String JVal :=
  match v with
  | .obj kvs => .ok (.obj (setKey kvs k x))
  | w => .error ("\x27" ++ pyTypeName w ++ "\x27 object does not support item assignment")

/-- Python iteration `for x in v`: TypeError unless `v` is a list. -/
def asList (v : JVal) : Except String (List JVal) :=
  match v with
  | .arr xs => .ok xs
  | w => .error ("\x27" ++ pyTypeName w ++ "\x27 object is not iterable")

/-- A value on which a `str` method (`.lower()`, base64 decoding input) is
invoked: AttributeError on a non-string. -/
def asStr (v : JVal) : Except String String :=
  match v with
  | .str s => .ok s
  | w => .error ("\x27" ++ pyTypeName w ++ "\x27 object has no attribute \x27lower\x27")

mutual

/-- `json.loads(bson.json_util.dumps(docs))` element-wise: BSON rendered as
(legacy) Extended JSON, turning an ObjectId into `\x7b"$oid": <hex>\x7d`. -/
def extJson : JVal → JVal
  | .null => .null
  | .bool b => .bool b
  | .num n => .num n
  | .str s => .str s
  | .oid s => .obj [("$oid", .str s)]
  | .arr xs => .arr (extJsonList xs)
  | .obj kvs => .obj (extJsonObj kvs)

def extJsonList : List JVal → List JVal
  | [] => []
  | x :: xs => extJson x :: extJsonList xs

def extJsonObj : List (String × JVal) → List (String × JVal)
  | [] => []
  | (k, v) :: kvs => (k, extJson v) :: extJsonObj kvs

end

mutual

/-- JSON-safety: the value uses only mappings, sequences, strings, numbers,
booleans and null — no backend-native identifier (`oid`). -/
def jsonSafe : JVal → Bool
  | .oid _ => false
  | .arr xs => jsonSafeList xs
  | .obj kvs => jsonSafeObj kvs
  | _ => true

def jsonSafeList : List JVal → Bool
  | [] => true
  | x :: xs => jsonSafe x && jsonSafeList xs

def jsonSafeObj : List (String × JVal) → Bool
  | [] => true
  | (_, v) :: kvs => jsonSafe v && jsonSafeObj kvs

end


/-! ## `src/mongodb_db.py` — MongoDB backing operation functions -/

/-- Result of a pymongo `update_one` / `update_many`. -/
structure UpdateResult where
  matched : Int
  modified : Int
  upserted : Option JVal

/-- The external world as seen by `mongodb_db.py`: the pymongo client,
`json.loads`, and ObjectId validity.  Each client call either returns data
or raises (`Except.error` = raised exception with its `str`). -/
structure MongoBackend where
  connect : JVal → Except String Unit
  listDatabaseNames : JVal → Except String (List String)
  listCollectionNames : JVal → JVal → Except String (List String)
  find : JVal → JVal → JVal → JVal → Option JVal → JVal → JVal → Except String (List JVal)
  insertOne : JVal → JVal → JVal → JVal → Except String JVal
  insertMany : JVal → JVal → JVal → JVal → Except String (List JVal)
  updateOne : JVal → JVal → JVal → JVal → JVal → JVal → Except String UpdateResult
  updateMany : JVal → JVal → JVal → JVal → JVal → JVal → Except String UpdateResult
  deleteOne : JVal → JVal → JVal → JVal → Except String Int
  deleteMany : JVal → JVal → JVal → JVal → Except String Int
  count : JVal → JVal → JVal → JVal → Except String Int
  aggregateOp : JVal → JVal → JVal → JVal → Except String (List JVal)
  jloads : String → Except String JVal
  oidOk : String → Bool

namespace Mongo

/-- `get_connection`: any connection/ping failure is re-raised as
`Exception("Connection error: " + str(e))`. -/
def get_connection (b : MongoBackend) (mongo_uri : JVal) : Except String Unit :=
  match b.connect mongo_uri with
  | .ok u => .ok u
  | .error e => .error ("Connection error: " ++ e)

/-- `query = json.loads(query) if query else \x7b\x7d` when `query` is a string,
`\x7b\x7d` when it is `None`, unchanged otherwise. -/
def parseQueryArg (jl : String → Except String JVal) (query : JVal) : Except String JVal :=
  match query with
  | .null => .ok (.obj [])
  | .str s => if s = "" then .ok (.obj []) else jl s
  | v => .ok v

/-- `sort = json.loads(sort) if sort else None` when `sort` is a string,
unchanged otherwise. -/
def parseSortArg (jl : String → Except String JVal) (sort : JVal) : Except String JVal :=
  match sort with
  | .str s => if s = "" then .ok .null else jl s
  | v => .ok v

/-- `document = json.loads(document)` when the argument is a string (no
falsiness guard), unchanged otherwise. -/
def parseDocArg (jl : String → Except String JVal) (document : JVal) : Except String JVal :=
  match document with
  | .str s => jl s
  | v => .ok v

/-- `if sort: cursor.sort(list(sort.items()) if isinstance(sort, dict) else sort)`:
the sort specification handed to the cursor, `none` when no sort is applied. -/
def sortSpec (sort : JVal) : Option JVal :=
  if truthy sort then
    some (match sort with
          | .obj kvs => .arr (kvs.map fun kv => .arr [.str kv.1, kv.2])
          | v => v)
  else none

/-- `ObjectId(v)`: a string builds a native ObjectId (validity decided by the
backend), an ObjectId passes through, anything else raises. -/
def objectIdCtor (b : MongoBackend) (v : JVal) : Except String JVal :=
  match v with
  | .str s =>
      if b.oidOk s then .ok (.oid s)
      else .error ("\x27" ++ s ++ "\x27 is not a valid ObjectId")
  | .oid s => .ok (.oid s)
  | w => .error ("id must be an instance of (bytes, str, ObjectId), not " ++ pyTypeName w)

/-- `if \x27_id\x27 in filter_query: filter_query[\x27_id\x27] = ObjectId(filter_query[\x27_id\x27])`. -/
def oidNormalize (b : MongoBackend) (filter_query : JVal) : Except String JVal :=
  match filter_query with
  | .obj kvs =>
      match kvs.lookup "_id" with
      | some v => do
          let o ← objectIdCtor b v
          pure (.obj (setKey kvs "_id" o))
      | none => .ok filter_query
  | .arr xs =>
      if xs.contains (.str "_id") then
        .error "list indices must be integers or slices, not str"
      else .ok filter_query
  | w => .error ("argument of type \x27" ++ pyTypeName w ++ "\x27 is not iterable")

/-- `if not any(key.startswith(\x27$\x27) for key in update_data.keys()):
update_data = \x7b\x27$set\x27: update_data\x7d`. -/
def setWrap (update_data : JVal) : Except String JVal :=
  match update_data with
  | .obj kvs =>
      .ok (if kvs.any (fun kv => kv.1.startsWith "$") then .obj kvs
           else .obj [("$set", .obj kvs)])
  | w => .error ("\x27" ++ pyTypeName w ++ "\x27 object has no attribute \x27keys\x27")

/-- `str(result.upserted_id) if result.upserted_id else None`. -/
def pyOptStr (u : Option JVal) : JVal :=
  match u with
  | none => .null
  | some v => if truthy v then .str (pyStr v) else .null

def list_databases_body (b : MongoBackend) (mongo_uri : JVal) : Except String JVal := do
  let _ ← get_connection b mongo_uri
  let databases ← b.listDatabaseNames mongo_uri
  pure (.obj [("success", .bool true),
              ("databases", .arr (databases.map .str)),
              ("count", .num databases.length)])

def list_databases (b : MongoBackend) (mongo_uri : JVal) : JVal :=
  wrapOp (list_databases_body b mongo_uri)

def list_collections_body (b : MongoBackend) (mongo_uri database_name : JVal) :
    Except String JVal := do
  let _ ← get_connection b mongo_uri
  let collections ← b.listCollectionNames mongo_uri database_name
  pure (.obj [("success", .bool true),
              ("database", database_name),
              ("collections", .arr (collections.map .str)),
              ("count", .num collections.length)])

def list_collections (b : MongoBackend) (mongo_uri database_name : JVal) : JVal :=
  wrapOp (list_collections_body b mongo_uri database_name)

def find_documents_body (b : MongoBackend)
    (mongo_uri database_name collection_name query limit skip sort : JVal) :
    Except String JVal := do
  let _ ← get_connection b mongo_uri
  let q ← parseQueryArg b.jloads query
  let srt ← parseSortArg b.jloads sort
  let documents ← b.find mongo_uri database_name collection_name q (sortSpec srt) skip limit
  let result := extJsonList documents
  pure (.obj [("success", .bool true),
              ("database", database_name),
              ("collection", collection_name),
              ("documents", .arr result),
              ("count", .num result.length)])

def find_documents (b : MongoBackend)
    (mongo_uri database_name collection_name query limit skip sort : JVal) : JVal :=
  wrapOp (find_documents_body b mongo_uri database_name collection_name query limit skip sort)

def insert_document_body (b : MongoBackend)
    (mongo_uri database_name collection_name document : JVal) : Except String JVal := do
  let _ ← get_connection b mongo_uri
  let doc ← parseDocArg b.jloads document
  let inserted_id ← b.insertOne mongo_uri database_name collection_name doc
  pure (.obj [("success", .bool true),
              ("database", database_name),
              ("collection", collection_name),
              ("inserted_id", .str (pyStr inserted_id)),
              ("message", .str "Document inserted successfully")])

def insert_document (b : MongoBackend)
    (mongo_uri database_name collection_name document : JVal) : JVal :=
  wrapOp (insert_document_body b mongo_uri database_name collection_name document)

def insert_many_documents_body (b : MongoBackend)
    (mongo_uri database_name collection_name documents : JVal) : Except String JVal := do
  let _ ← get_connection b mongo_uri
  let docs ← parseDocArg b.jloads documents
  let inserted_ids ← b.insertMany mongo_uri database_name collection_name docs
  pure (.obj [("success", .bool true),
              ("database", database_name),
              ("collection", collection_name),
              ("inserted_ids", .arr (inserted_ids.map fun i => .str (pyStr i))),
              ("count", .num inserted_ids.length),
              ("message", .str (toString inserted_ids.length ++
                                " documents inserted successfully"))])

def insert_many_documents (b : MongoBackend)
    (mongo_uri database_name collection_name documents : JVal) : JVal :=
  wrapOp (insert_many_documents_body b mongo_uri database_name collection_name documents)

def update_document_body (b : MongoBackend)
    (mongo_uri database_name collection_name filter_query update_data upsert : JVal) :
    Except String JVal := do
  let _ ← get_connection b mongo_uri
  let filt ← parseDocArg b.jloads filter_query
  let upd ← parseDocArg b.jloads update_data
  let filt ← oidNormalize b filt
  let upd ← setWrap upd
  let r ← b.updateOne mongo_uri database_name collection_name filt upd upsert
  pure (.obj [("success", .bool true),
              ("database", database_name),
              ("collection", collection_name),
              ("matched_count", .num r.matched),
              ("modified_count", .num r.modified),
              ("upserted_id", pyOptStr r.upserted),
              ("message", .str ("Update completed. Matched: " ++ toString r.matched ++
                                ", Modified: " ++ toString r.modified))])

def update_document (b : MongoBackend)
    (mongo_uri database_name collection_name filter_query update_data upsert : JVal) : JVal :=
  wrapOp (update_document_body b mongo_uri database_name collection_name
            filter_query update_data upsert)

def update_many_documents_body (b : MongoBackend)
    (mongo_uri database_name collection_name filter_query update_data upsert : JVal) :
    Except String JVal := do
  let _ ← get_connection b mongo_uri
  let filt ← parseDocArg b.jloads filter_query
  let upd ← parseDocArg b.jloads update_data
  let filt ← oidNormalize b filt
  let upd ← setWrap upd
  let r ← b.updateMany mongo_uri database_name collection_name filt upd upsert
  pure (.obj [("success", .bool true),
              ("database", database_name),
              ("collection", collection_name),
              ("matched_count", .num r.matched),
              ("modified_count", .num r.modified),
              ("upserted_id", pyOptStr r.upserted),
              ("message", .str ("Update completed. Matched: " ++ toString r.matched ++
                                ", Modified: " ++ toString r.modified))])

def update_many_documents (b : MongoBackend)
    (mongo_uri database_name collection_name filter_query update_data upsert : JVal) : JVal :=
  wrapOp (update_many_documents_body b mongo_uri database_name collection_name
            filter_query update_data upsert)

def delete_document_body (b : MongoBackend)
    (mongo_uri database_name collection_name filter_query : JVal) : Except String JVal := do
  let _ ← get_connection b mongo_uri
  let filt ← parseDocArg b.jloads filter_query
  let filt ← oidNormalize b filt
  let n ← b.deleteOne mongo_uri database_name collection_name filt
  pure (.obj [("success", .bool true),
              ("database", database_name),
              ("collection", collection_name),
              ("deleted_count", .num n),
              ("message", .str (toString n ++ " document(s) deleted"))])

def delete_document (b : MongoBackend)
    (mongo_uri database_name collection_name filter_query : JVal) : JVal :=
  wrapOp (delete_document_body b mongo_uri database_name collection_name filter_query)

def delete_many_documents_body (b : MongoBackend)
    (mongo_uri database_name collection_name filter_query : JVal) : Except String JVal := do
  let _ ← get_connection b mongo_uri
  let filt ← parseDocArg b.jloads filter_query
  let filt ← oidNormalize b filt
  let n ← b.deleteMany mongo_uri database_name collection_name filt
  pure (.obj [("success", .bool true),
              ("database", database_name),
              ("collection", collection_name),
              ("deleted_count", .num n),
              ("message", .str (toString n ++ " document(s) deleted"))])

def delete_many_documents (b : MongoBackend)
    (mongo_uri database_name collection_name filter_query : JVal) : JVal :=
  wrapOp (delete_many_documents_body b mongo_uri database_name collection_name filter_query)

def count_documents_body (b : MongoBackend)
    (mongo_uri database_name collection_name query : JVal) : Except String JVal := do
  let _ ← get_connection b mongo_uri
  let q ← parseQueryArg b.jloads query
  let count ← b.count mongo_uri database_name collection_name q
  pure (.obj [("success", .bool true),
              ("database", database_name),
              ("collection", collection_name),
              ("count", .num count)])

def count_documents (b : MongoBackend)
    (mongo_uri database_name collection_name query : JVal) : JVal :=
  wrapOp (count_documents_body b mongo_uri database_name collection_name query)

def aggregate_body (b : MongoBackend)
    (mongo_uri database_name collection_name pipeline : JVal) : Except String JVal := do
  let _ ← get_connection b mongo_uri
  let p ← parseDocArg b.jloads pipeline
  let result ← b.aggregateOp mongo_uri database_name collection_name p
  let result_data := extJsonList result
  pure (.obj [("success", .bool true),
              ("database", database_name),
              ("collection", collection_name),
              ("documents", .arr result_data),
              ("count", .num result_data.length)])

def aggregate (b : MongoBackend)
    (mongo_uri database_name collection_name pipeline : JVal) : JVal :=
  wrapOp (aggregate_body b mongo_uri database_name collection_name pipeline)

end Mongo

/-! ## `src/postgres_db.py` — PostgreSQL backing operation functions -/

/-- The external world as seen by `postgres_db.py`: the psycopg2 connection
and cursors.  `query` fetches rows without committing; `write` returns the
rowcount of a committed statement (rollback on error happens backend-side). -/
structure PgBackend where
  connect : JVal → Except String Unit
  query : JVal → JVal → JVal → Except String (List JVal)
  write : JVal → JVal → JVal → Except String Int
  listTablesRows : JVal → Except String (List JVal)
  describeCols : JVal → JVal → Except String (List JVal)
  tableCount : JVal → JVal → Except String Int

namespace Pg

/-- `get_connection`: `parse_db_url` plus `psycopg2.connect`; any failure is
re-raised as `Exception("Connection error: " + str(e))`. -/
def get_connection (b : PgBackend) (db_url : JVal) : Except String Unit :=
  match b.connect db_url with
  | .ok u => .ok u
  | .error e => .error ("Connection error: " ++ e)

/-- `params or []`. -/
def paramsOr (params : JVal) : JVal :=
  if truthy params then params else .arr []

def execute_query_body (b : PgBackend) (db_url query params : JVal) : Except String JVal := do
  let _ ← get_connection b db_url
  let rows ← b.query db_url query (paramsOr params)
  pure (.obj [("success", .bool true),
              ("rows", .arr rows),
              ("count", .num rows.length)])

def execute_query (b : PgBackend) (db_url query params : JVal) : JVal :=
  wrapOp (execute_query_body b db_url query params)

def execute_write_body (b : PgBackend) (db_url query params : JVal) : Except String JVal := do
  let _ ← get_connection b db_url
  let rows_affected ← b.write db_url query (paramsOr params)
  pure (.obj [("success", .bool true),
              ("rows_affected", .num rows_affected),
              ("message", .str ("Query executed successfully. " ++
                                toString rows_affected ++ " row(s) affected."))])

def execute_write (b : PgBackend) (db_url query params : JVal) : JVal :=
  wrapOp (execute_write_body b db_url query params)

def list_tables_body (b : PgBackend) (db_url : JVal) : Except String JVal := do
  let _ ← get_connection b db_url
  let tables ← b.listTablesRows db_url
  pure (.obj [("success", .bool true),
              ("tables", .arr tables),
              ("count", .num tables.length)])

def list_tables (b : PgBackend) (db_url : JVal) : JVal :=
  wrapOp (list_tables_body b db_url)

def describe_table_body (b : PgBackend) (db_url table_name : JVal) : Except String JVal := do
  let _ ← get_connection b db_url
  let columns ← b.describeCols db_url table_name
  if columns.isEmpty then
    pure (.obj [("success", .bool false),
                ("error", .str ("Table \x27" ++ pyStr table_name ++ "\x27 not found"))])
  else
    pure (.obj [("success", .bool true),
                ("table_name", table_name),
                ("columns", .arr columns)])

def describe_table (b : PgBackend) (db_url table_name : JVal) : JVal :=
  wrapOp (describe_table_body b db_url table_name)

def get_table_count_body (b : PgBackend) (db_url table_name : JVal) : Except String JVal := do
  let _ ← get_connection b db_url
  let count ← b.tableCount db_url table_name
  pure (.obj [("success", .bool true),
              ("table_name", table_name),
              ("count", .num count)])

def get_table_count (b : PgBackend) (db_url table_name : JVal) : JVal :=
  wrapOp (get_table_count_body b db_url table_name)

/-- `run_custom_sql`: the routing line `sql_upper = sql.strip().upper()` runs
OUTSIDE any try/except, so a non-string `sql` raises an AttributeError that
escapes to the caller — hence the `Except` return type, unlike every other
function in this module. -/
def run_custom_sql (b : PgBackend) (db_url sql params : JVal) : Except String JVal :=
  match sql with
  | .str s =>
      let sql_upper := (pyStrip s).toUpper
      if sql_upper.startsWith "SELECT" || sql_upper.startsWith "WITH" then
        .ok (execute_query b db_url (.str s) params)
      else
        .ok (execute_write b db_url (.str s) params)
  | w => .error ("\x27" ++ pyTypeName w ++ "\x27 object has no attribute \x27strip\x27")

end Pg

/-! ## `src/google_gmail.py`, `src/google_sheets.py`, `src/google_calendar.py` -/

/-- The external world as seen by the Google-service modules: credential
acquisition plus one oracle per API endpoint, base64 decoding, and the
clock reads used for calendar defaults. -/
structure GoogleBackend where
  getCreds : Except String Unit
  gmailList : JVal → JVal → Except String JVal
  gmailGet : JVal → Except String JVal
  gmailSend : JVal → JVal → JVal → JVal → Except String JVal
  b64 : String → Except String String
  sheetsGet : JVal → JVal → Except String JVal
  sheetsUpdate : JVal → JVal → JVal → Except String JVal
  sheetsAppend : JVal → JVal → JVal → Except String JVal
  sheetsInfo : JVal → Except String JVal
  calList : JVal → String → JVal → Except String JVal
  calInsert : JVal → JVal → Except String JVal
  calGet : JVal → JVal → Except String JVal
  calUpdate : JVal → JVal → JVal → Except String JVal
  calDelete : JVal → JVal → Except String JVal
  nowIso : String
  nowPlus1hIso : String
  isoParse : String → Except String String

namespace Google

/-- `part.get(k) == s` (Python `==` against a string literal). -/
def pyEqStr (v : JVal) (s : String) : Bool :=
  match v with
  | .str t => t == s
  | _ => false

/-- `extract_body`, inner loop over `payload.get(\x27parts\x27, [])`: the first
part that is `text/plain` or `text/html` WITH truthy body data is decoded
and returned; otherwise the scan continues. -/
def extractBodyParts (g : GoogleBackend) : List JVal → Except String String
  | [] => .ok ""
  | part :: rest => do
      let mt ← pyGet part "mimeType" .null
      if pyEqStr mt "text/plain" then do
        let bo ← pyGet part "body" (.obj [])
        let bd ← pyGet bo "data" .null
        if truthy bd then do
          let s ← asStr bd
          g.b64 s
        else extractBodyParts g rest
      else if pyEqStr mt "text/html" then do
        let bo ← pyGet part "body" (.obj [])
        let bd ← pyGet bo "data" .null
        if truthy bd then do
          let s ← asStr bd
          g.b64 s
        else extractBodyParts g rest
      else extractBodyParts g rest

/-- `extract_body(payload)`. -/
def extract_body (g : GoogleBackend) (payload : JVal) : Except String String := do
  if !truthy payload then
    pure ""
  else do
    let bodyObj ← pyGet payload "body" (.obj [])
    let bodyData ← pyGet bodyObj "data" .null
    if truthy bodyData then do
      let s ← asStr bodyData
      g.b64 s
    else do
      let parts ← pyGet payload "parts" (.arr [])
      let ps ← asList parts
      extractBodyParts g ps

/-- `get_header(name)` closure: scan the headers for a case-insensitive
name match, returning its value, else `""`. -/
def getHeader : List JVal → String → Except String JVal
  | [], _ => .ok (.str "")
  | h :: rest, name => do
      let n ← getItemDyn h "name"
      let ns ← asStr n
      if ns.toLower == name.toLower then getItemDyn h "value"
      else getHeader rest name

def get_email_detail_body (g : GoogleBackend) (message_id : JVal) : Except String JVal := do
  let _ ← g.getCreds
  let message ← g.gmailGet message_id
  let payload ← pyGet message "payload" (.obj [])
  let headers ← pyGet payload "headers" (.arr [])
  let hs ← asList headers
  let mid ← getItemDyn message "id"
  let threadId ← pyGet message "threadId" (.str "")
  let subject ← getHeader hs "subject"
  let from_ ← getHeader hs "from"
  let to_ ← getHeader hs "to"
  let date ← getHeader hs "date"
  let snippet ← pyGet message "snippet" (.str "")
  let body ← extract_body g payload
  pure (.obj [("success", .bool true),
              ("data", .obj [("id", mid), ("threadId", threadId),
                             ("subject", subject), ("from", from_), ("to", to_),
                             ("date", date), ("snippet", snippet),
                             ("body", .str body)])])

def get_email_detail (g : GoogleBackend) (message_id : JVal) : JVal :=
  wrapOp (get_email_detail_body g message_id)

/-- `list_emails` message loop: per message, fetch the detail and keep its
`data` when `detail[\x27success\x27]` is truthy. -/
def listEmailsLoop (g : GoogleBackend) : List JVal → Except String (List JVal)
  | [] => .ok []
  | m :: rest => do
      let mid ← getItemDyn m "id"
      let detail := get_email_detail g mid
      let s ← getItemDyn detail "success"
      let acc ← if truthy s then do
          let d ← getItemDyn detail "data"
          pure [d]
        else pure ([] : List JVal)
      let rem ← listEmailsLoop g rest
      pure (acc ++ rem)

def list_emails_body (g : GoogleBackend) (max_results query : JVal) : Except String JVal := do
  let _ ← g.getCreds
  let results ← g.gmailList max_results query
  let messages ← pyGet results "messages" (.arr [])
  let msgs ← asList messages
  let message_details ← listEmailsLoop g msgs
  let total ← pyGet results "resultSizeEstimate" (.num 0)
  pure (.obj [("success", .bool true),
              ("messages", .arr message_details),
              ("total", total)])

def list_emails (g : GoogleBackend) (max_results query : JVal) : JVal :=
  wrapOp (list_emails_body g max_results query)

def send_email_body (g : GoogleBackend) (to_ subject body is_html : JVal) :
    Except String JVal := do
  let _ ← g.getCreds
  let send_message ← g.gmailSend to_ subject body is_html
  let mid ← pyGet send_message "id" (.str "")
  let tid ← pyGet send_message "threadId" (.str "")
  pure (.obj [("success", .bool true),
              ("messageId", mid),
              ("threadId", tid)])

def send_email (g : GoogleBackend) (to_ subject body is_html : JVal) : JVal :=
  wrapOp (send_email_body g to_ subject body is_html)

/-- `[msg[\x27id\x27] for msg in messages]`. -/
def msgIds : List JVal → Except String (List JVal)
  | [] => .ok []
  | m :: rest => do
      let i ← getItemDyn m "id"
      let r ← msgIds rest
      pure (i :: r)

def search_emails_body (g : GoogleBackend) (query : JVal) : Except String JVal := do
  let _ ← g.getCreds
  let results ← g.gmailList (.num 50) query
  let messages ← pyGet results "messages" (.arr [])
  let msgs ← asList messages
  let ids ← msgIds msgs
  let total ← pyGet results "resultSizeEstimate" (.num 0)
  pure (.obj [("success", .bool true),
              ("messageIds", .arr ids),
              ("total", total)])

def search_emails (g : GoogleBackend) (query : JVal) : JVal :=
  wrapOp (search_emails_body g query)

def read_sheet_data_body (g : GoogleBackend) (spreadsheet_id range_name : JVal) :
    Except String JVal := do
  let _ ← g.getCreds
  let result ← g.sheetsGet spreadsheet_id range_name
  let values ← pyGet result "values" (.arr [])
  let rng ← pyGet result "range" range_name
  pure (.obj [("success", .bool true),
              ("data", values),
              ("range", rng)])

def read_sheet_data (g : GoogleBackend) (spreadsheet_id range_name : JVal) : JVal :=
  wrapOp (read_sheet_data_body g spreadsheet_id range_name)

def write_sheet_data_body (g : GoogleBackend) (spreadsheet_id range_name values : JVal) :
    Except String JVal := do
  let _ ← g.getCreds
  let result ← g.sheetsUpdate spreadsheet_id range_name values
  let uc ← pyGet result "updatedCells" (.num 0)
  let ur ← pyGet result "updatedRange" range_name
  pure (.obj [("success", .bool true),
              ("updatedCells", uc),
              ("updatedRange", ur)])

def write_sheet_data (g : GoogleBackend) (spreadsheet_id range_name values : JVal) : JVal :=
  wrapOp (write_sheet_data_body g spreadsheet_id range_name values)

def append_sheet_data_body (g : GoogleBackend) (spreadsheet_id range_name values : JVal) :
    Except String JVal := do
  let _ ← g.getCreds
  let result ← g.sheetsAppend spreadsheet_id range_name values
  let updates ← pyGet result "updates" (.obj [])
  let uc ← pyGet updates "updatedCells" (.num 0)
  let ur ← pyGet updates "updatedRange" range_name
  pure (.obj [("success", .bool true),
              ("updatedCells", uc),
              ("updatedRange", ur)])

def append_sheet_data (g : GoogleBackend) (spreadsheet_id range_name values : JVal) : JVal :=
  wrapOp (append_sheet_data_body g spreadsheet_id range_name values)

/-- `get_sheet_info` per-sheet loop. -/
def sheetInfoLoop : List JVal → Except String (List JVal)
  | [] => .ok []
  | s :: rest => do
      let sheet_props ← pyGet s "properties" (.obj [])
      let grid_props ← pyGet sheet_props "gridProperties" (.obj [])
      let title ← pyGet sheet_props "title" (.str "")
      let sheetId ← pyGet sheet_props "sheetId" (.str "")
      let rowCount ← pyGet grid_props "rowCount" (.num 0)
      let columnCount ← pyGet grid_props "columnCount" (.num 0)
      let r ← sheetInfoLoop rest
      pure (.obj [("title", title), ("sheetId", sheetId),
                  ("rowCount", rowCount), ("columnCount", columnCount)] :: r)

def get_sheet_info_body (g : GoogleBackend) (spreadsheet_id : JVal) : Except String JVal := do
  let _ ← g.getCreds
  let result ← g.sheetsInfo spreadsheet_id
  let properties ← pyGet result "properties" (.obj [])
  let sheetsRaw ← pyGet result "sheets" (.arr [])
  let sl ← asList sheetsRaw
  let sheets_info ← sheetInfoLoop sl
  let title ← pyGet properties "title" (.str "")
  pure (.obj [("success", .bool true),
              ("title", title),
              ("sheets", .arr sheets_info)])

def get_sheet_info (g : GoogleBackend) (spreadsheet_id : JVal) : JVal :=
  wrapOp (get_sheet_info_body g spreadsheet_id)

/-- `event.get(k1, \x7b\x7d).get(\x27dateTime\x27) or event.get(k1, \x7b\x7d).get(\x27date\x27, \x27\x27)`
with Python `or` laziness. -/
def eventTimeOf (e : JVal) (k : String) : Except String JVal := do
  let st1 ← pyGet e k (.obj [])
  let s1 ← pyGet st1 "dateTime" .null
  if truthy s1 then pure s1
  else do
    let st2 ← pyGet e k (.obj [])
    pyGet st2 "date" (.str "")

/-- `[attendee.get(\x27email\x27, \x27\x27) for attendee in event.get(\x27attendees\x27, [])]`. -/
def attendeeEmails : List JVal → Except String (List JVal)
  | [] => .ok []
  | a :: rest => do
      let e ← pyGet a "email" (.str "")
      let r ← attendeeEmails rest
      pure (e :: r)

/-- `list_events` per-event formatting loop. -/
def listEventsLoop : List JVal → Except String (List JVal)
  | [] => .ok []
  | ev :: rest => do
      let id_ ← pyGet ev "id" (.str "")
      let summary ← pyGet ev "summary" (.str "")
      let description ← pyGet ev "description" (.str "")
      let start ← eventTimeOf ev "start"
      let end_ ← eventTimeOf ev "end"
      let location ← pyGet ev "location" (.str "")
      let attRaw ← pyGet ev "attendees" (.arr [])
      let atts ← asList attRaw
      let attendees ← attendeeEmails atts
      let status ← pyGet ev "status" (.str "")
      let r ← listEventsLoop rest
      pure (.obj [("id", id_), ("summary", summary), ("description", description),
                  ("start", start), ("end", end_), ("location", location),
                  ("attendees", .arr attendees), ("status", status)] :: r)

def list_events_body (g : GoogleBackend) (calendar_id max_results time_min : JVal) :
    Except String JVal := do
  let _ ← g.getCreds
  let tm ← (match time_min with
    | .null => .ok (g.nowIso ++ "Z")
    | .str s => (g.isoParse (s.replace "Z" "+00:00")).map (· ++ "Z")
    | w => .error ("\x27" ++ pyTypeName w ++ "\x27 object has no attribute \x27replace\x27"))
  let events_result ← g.calList calendar_id tm max_results
  let eventsRaw ← pyGet events_result "items" (.arr [])
  let evs ← asList eventsRaw
  let formatted_events ← listEventsLoop evs
  pure (.obj [("success", .bool true),
              ("events", .arr formatted_events),
              ("total", .num formatted_events.length)])

def list_events (g : GoogleBackend) (calendar_id max_results time_min : JVal) : JVal :=
  wrapOp (list_events_body g calendar_id max_results time_min)

/-- `[\x7b\x27email\x27: email\x7d for email in event_data[\x27attendees\x27]]`. -/
def emailObjs (xs : List JVal) : List JVal :=
  xs.map fun e => .obj [("email", e)]

/-- `if event_data.get(k): event[k] = event_data[k]`. -/
def condSet (ed : JVal) (k : String) (event : JVal) : Except String JVal := do
  let v ← pyGet ed k .null
  if truthy v then do
    let x ← getItemDyn ed k
    setItem event k x
  else pure event

/-- `if event_data.get(k): event[k] = \x7b\x27dateTime\x27: event_data[k],
\x27timeZone\x27: event_data.get(\x27timeZone\x27, \x27America/Los_Angeles\x27)\x7d`. -/
def condSetTime (ed : JVal) (k : String) (event : JVal) : Except String JVal := do
  let v ← pyGet ed k .null
  if truthy v then do
    let x ← getItemDyn ed k
    let tz ← pyGet ed "timeZone" (.str "America/Los_Angeles")
    setItem event k (.obj [("dateTime", x), ("timeZone", tz)])
  else pure event

/-- `if event_data.get(\x27attendees\x27): event[\x27attendees\x27] = [...]`. -/
def condSetAttendees (ed : JVal) (event : JVal) : Except String JVal := do
  let v ← pyGet ed "attendees" .null
  if truthy v then do
    let xs ← getItemDyn ed "attendees"
    let l ← asList xs
    setItem event "attendees" (.arr (emailObjs l))
  else pure event

def create_event_body (g : GoogleBackend) (calendar_id event_data : JVal) :
    Except String JVal := do
  let ed := match event_data with
    | .null => .obj []
    | v => v
  let _ ← g.getCreds
  let summary ← pyGet ed "summary" (.str "")
  let description ← pyGet ed "description" (.str "")
  let start ← pyGet ed "start" (.str (g.nowIso ++ "Z"))
  let tz ← pyGet ed "timeZone" (.str "America/Los_Angeles")
  let end_ ← pyGet ed "end" (.str (g.nowPlus1hIso ++ "Z"))
  let event0 : JVal := .obj [("summary", summary), ("description", description),
    ("start", .obj [("dateTime", start), ("timeZone", tz)]),
    ("end", .obj [("dateTime", end_), ("timeZone", tz)])]
  let event1 ← condSet ed "location" event0
  let event2 ← condSetAttendees ed event1
  let created ← g.calInsert calendar_id event2
  let cid ← pyGet created "id" (.str "")
  let hl ← pyGet created "htmlLink" (.str "")
  let cid2 ← pyGet created "id" (.str "")
  let csum ← pyGet created "summary" (.str "")
  let cstart ← eventTimeOf created "start"
  let cend ← eventTimeOf created "end"
  pure (.obj [("success", .bool true),
              ("eventId", cid),
              ("htmlLink", hl),
              ("event", .obj [("id", cid2), ("summary", csum),
                              ("start", cstart), ("end", cend)])])

def create_event (g : GoogleBackend) (calendar_id event_data : JVal) : JVal :=
  wrapOp (create_event_body g calendar_id event_data)

def update_event_body (g : GoogleBackend) (calendar_id event_id event_data : JVal) :
    Except String JVal := do
  let ed := match event_data with
    | .null => .obj []
    | v => v
  let _ ← (match event_id with
    | .null => .error "event_id is required"
    | _ => .ok ())
  let _ ← g.getCreds
  let event ← g.calGet calendar_id event_id
  let event ← condSet ed "summary" event
  let event ← condSet ed "description" event
  let event ← condSetTime ed "start" event
  let event ← condSetTime ed "end" event
  let event ← condSet ed "location" event
  let event ← condSetAttendees ed event
  let updated ← g.calUpdate calendar_id event_id event
  let uid ← pyGet updated "id" (.str "")
  let hl ← pyGet updated "htmlLink" (.str "")
  pure (.obj [("success", .bool true),
              ("eventId", uid),
              ("htmlLink", hl)])

def update_event (g : GoogleBackend) (calendar_id event_id event_data : JVal) : JVal :=
  wrapOp (update_event_body g calendar_id event_id event_data)

def delete_event_body (g : GoogleBackend) (calendar_id event_id : JVal) :
    Except String JVal := do
  let _ ← (match event_id with
    | .null => .error "event_id is required"
    | _ => .ok ())
  let _ ← g.getCreds
  let _ ← g.calDelete calendar_id event_id
  pure (.obj [("success", .bool true),
              ("message", .str "Event deleted successfully")])

def delete_event (g : GoogleBackend) (calendar_id event_id : JVal) : JVal :=
  wrapOp (delete_event_body g calendar_id event_id)

def get_event_body (g : GoogleBackend) (calendar_id event_id : JVal) :
    Except String JVal := do
  let _ ← (match event_id with
    | .null => .error "event_id is required"
    | _ => .ok ())
  let _ ← g.getCreds
  let event ← g.calGet calendar_id event_id
  let id_ ← pyGet event "id" (.str "")
  let summary ← pyGet event "summary" (.str "")
  let description ← pyGet event "description" (.str "")
  let start ← eventTimeOf event "start"
  let end_ ← eventTimeOf event "end"
  let location ← pyGet event "location" (.str "")
  let attRaw ← pyGet event "attendees" (.arr [])
  let atts ← asList attRaw
  let attendees ← attendeeEmails atts
  let status ← pyGet event "status" (.str "")
  pure (.obj [("success", .bool true),
              ("event", .obj [("id", id_), ("summary", summary),
                              ("description", description), ("start", start),
                              ("end", end_), ("location", location),
                              ("attendees", .arr attendees), ("status", status)])])

def get_event (g : GoogleBackend) (calendar_id event_id : JVal) : JVal :=
  wrapOp (get_event_body g calendar_id event_id)

end Google

/-! ## Tool registries (the three `list_tools` handlers)

Each `list_tools` handler is an async function whose body is a single
`return` of a literal list of `Tool(...)` values: it reads no mutable
state and performs no I/O, so its shallow embedding is a constant. -/

/-- `mcp.types.Tool` as used by the registries. -/
structure Tool where
  name : String
  description : String
  inputSchema : JVal

/-- `mongodb_mcp.list_tools()`. -/
def mongoListTools : List Tool := [
  { name := "list_databases",
    description := "List all databases in MongoDB",
    inputSchema := .obj [("type", .str "object"), ("properties", .obj [])] },
  { name := "list_collections",
    description := "List all collections in a specific database",
    inputSchema := .obj [("type", .str "object"),
      ("properties", .obj [
        ("database_name", .obj [("type", .str "string"),
          ("description", .str "Name of the database")])]),
      ("required", .arr [.str "database_name"])] },
  { name := "find_documents",
    description := "Find documents in a collection. Supports query, limit, skip, and sort options.",
    inputSchema := .obj [("type", .str "object"),
      ("properties", .obj [
        ("database_name", .obj [("type", .str "string"), ("description", .str "Database name")]),
        ("collection_name", .obj [("type", .str "string"), ("description", .str "Collection name")]),
        ("query", .obj [("type", .str "string"),
          ("description", .str "MongoDB query filter (JSON string, e.g., \x27\x7b\"name\": \"John\"\x7d\x27)")]),
        ("limit", .obj [("type", .str "integer"),
          ("description", .str "Maximum number of documents to return (default: 100)")]),
        ("skip", .obj [("type", .str "integer"),
          ("description", .str "Number of documents to skip (default: 0)")]),
        ("sort", .obj [("type", .str "string"),
          ("description", .str "Sort criteria (JSON string, e.g., \x27\x7b\"name\": 1\x7d\x27 for ascending)")])]),
      ("required", .arr [.str "database_name", .str "collection_name"])] },
  { name := "insert_document",
    description := "Insert a single document into a collection",
    inputSchema := .obj [("type", .str "object"),
      ("properties", .obj [
        ("database_name", .obj [("type", .str "string"), ("description", .str "Database name")]),
        ("collection_name", .obj [("type", .str "string"), ("description", .str "Collection name")]),
        ("document", .obj [("type", .str "string"),
          ("description", .str "Document to insert (JSON string, e.g., \x27\x7b\"name\": \"John\", \"age\": 30\x7d\x27)")])]),
      ("required", .arr [.str "database_name", .str "collection_name", .str "document"])] },
  { name := "insert_many_documents",
    description := "Insert multiple documents into a collection",
    inputSchema := .obj [("type", .str "object"),
      ("properties", .obj [
        ("database_name", .obj [("type", .str "string"), ("description", .str "Database name")]),
        ("collection_name", .obj [("type", .str "string"), ("description", .str "Collection name")]),
        ("documents", .obj [("type", .str "string"),
          ("description", .str "Array of documents to insert (JSON string, e.g., \x27[\x7b\"name\": \"John\"\x7d, \x7b\"name\": \"Jane\"\x7d]\x27)")])]),
      ("required", .arr [.str "database_name", .str "collection_name", .str "documents"])] },
  { name := "update_document",
    description := "Update a single document in a collection",
    inputSchema := .obj [("type", .str "object"),
      ("properties", .obj [
        ("database_name", .obj [("type", .str "string"), ("description", .str "Database name")]),
        ("collection_name", .obj [("type", .str "string"), ("description", .str "Collection name")]),
        ("filter_query", .obj [("type", .str "string"),
          ("description", .str "Filter query to find document (JSON string, e.g., \x27\x7b\"_id\": \"...\"\x7d\x27)")]),
        ("update_data", .obj [("type", .str "string"),
          ("description", .str "Update data (JSON string, e.g., \x27\x7b\"name\": \"John Updated\"\x7d\x27)")]),
        ("upsert", .obj [("type", .str "boolean"),
          ("description", .str "Create document if it doesn\x27t exist (default: false)")])]),
      ("required", .arr [.str "database_name", .str "collection_name",
                         .str "filter_query", .str "update_data"])] },
  { name := "update_many_documents",
    description := "Update multiple documents in a collection",
    inputSchema := .obj [("type", .str "object"),
      ("properties", .obj [
        ("database_name", .obj [("type", .str "string"), ("description", .str "Database name")]),
        ("collection_name", .obj [("type", .str "string"), ("description", .str "Collection name")]),
        ("filter_query", .obj [("type", .str "string"),
          ("description", .str "Filter query to find documents")]),
        ("update_data", .obj [("type", .str "string"),
          ("description", .str "Update data for matching documents")]),
        ("upsert", .obj [("type", .str "boolean"),
          ("description", .str "Create documents if they don\x27t exist")])]),
      ("required", .arr [.str "database_name", .str "collection_name",
                         .str "filter_query", .str "update_data"])] },
  { name := "delete_document",
    description := "Delete a single document from a collection",
    inputSchema := .obj [("type", .str "object"),
      ("properties", .obj [
        ("database_name", .obj [("type", .str "string"), ("description", .str "Database name")]),
        ("collection_name", .obj [("type", .str "string"), ("description", .str "Collection name")]),
        ("filter_query", .obj [("type", .str "string"),
          ("description", .str "Filter query to find document to delete")])]),
      ("required", .arr [.str "database_name", .str "collection_name", .str "filter_query"])] },
  { name := "delete_many_documents",
    description := "Delete multiple documents from a collection",
    inputSchema := .obj [("type", .str "object"),
      ("properties", .obj [
        ("database_name", .obj [("type", .str "string"), ("description", .str "Database name")]),
        ("collection_name", .obj [("type", .str "string"), ("description", .str "Collection name")]),
        ("filter_query", .obj [("type", .str "string"),
          ("description", .str "Filter query to find documents to delete")])]),
      ("required", .arr [.str "database_name", .str "collection_name", .str "filter_query"])] },
  { name := "count_documents",
    description := "Count documents in a collection matching a query",
    inputSchema := .obj [("type", .str "object"),
      ("properties", .obj [
        ("database_name", .obj [("type", .str "string"), ("description", .str "Database name")]),
        ("collection_name", .obj [("type", .str "string"), ("description", .str "Collection name")]),
        ("query", .obj [("type", .str "string"),
          ("description", .str "Query filter (JSON string, optional)")])]),
      ("required", .arr [.str "database_name", .str "collection_name"])] },
  { name := "aggregate",
    description := "Run MongoDB aggregation pipeline",
    inputSchema := .obj [("type", .str "object"),
      ("properties", .obj [
        ("database_name", .obj [("type", .str "string"), ("description", .str "Database name")]),
        ("collection_name", .obj [("type", .str "string"), ("description", .str "Collection name")]),
        ("pipeline", .obj [("type", .str "string"),
          ("description", .str "Aggregation pipeline (JSON array string, e.g., \x27[\x7b\"$match\": \x7b...\x7d\x7d, \x7b\"$group\": \x7b...\x7d\x7d]\x27)")])]),
      ("required", .arr [.str "database_name", .str "collection_name", .str "pipeline"])] }]

/-- `postgres_mcp.list_tools()`. -/
def pgListTools : List Tool := [
  { name := "execute_query",
    description := "Execute a SELECT query and return results. Use for reading data from tables.",
    inputSchema := .obj [("type", .str "object"),
      ("properties", .obj [
        ("query", .obj [("type", .str "string"),
          ("description", .str "SQL SELECT query to execute")]),
        ("params", .obj [("type", .str "array"),
          ("description", .str "Optional query parameters for parameterized queries"),
          ("items", .obj [("type", .str "string")])])]),
      ("required", .arr [.str "query"])] },
  { name := "execute_write",
    description := "Execute INSERT, UPDATE, or DELETE queries. Use for modifying data.",
    inputSchema := .obj [("type", .str "object"),
      ("properties", .obj [
        ("query", .obj [("type", .str "string"),
          ("description", .str "SQL INSERT, UPDATE, or DELETE query")]),
        ("params", .obj [("type", .str "array"),
          ("description", .str "Optional query parameters"),
          ("items", .obj [("type", .str "string")])])]),
      ("required", .arr [.str "query"])] },
  { name := "run_custom_sql",
    description := "Execute any SQL query (SELECT, INSERT, UPDATE, DELETE, etc.). Automatically handles query type.",
    inputSchema := .obj [("type", .str "object"),
      ("properties", .obj [
        ("sql", .obj [("type", .str "string"),
          ("description", .str "Any SQL query to execute")]),
        ("params", .obj [("type", .str "array"),
          ("description", .str "Optional query parameters"),
          ("items", .obj [("type", .str "string")])])]),
      ("required", .arr [.str "sql"])] },
  { name := "list_tables",
    description := "List all tables in the database with their schemas",
    inputSchema := .obj [("type", .str "object"), ("properties", .obj [])] },
  { name := "describe_table",
    description := "Get detailed schema information for a specific table including columns, types, and constraints",
    inputSchema := .obj [("type", .str "object"),
      ("properties", .obj [
        ("table_name", .obj [("type", .str "string"),
          ("description", .str "Name of the table to describe")])]),
      ("required", .arr [.str "table_name"])] },
  { name := "get_table_count",
    description := "Get the total number of rows in a table",
    inputSchema := .obj [("type", .str "object"),
      ("properties", .obj [
        ("table_name", .obj [("type", .str "string"),
          ("description", .str "Name of the table")])]),
      ("required", .arr [.str "table_name"])] }]

/-- `mcp_server.list_tools()` (Google services). -/
def googleListTools : List Tool := [
  { name := "read_sheet",
    description := "Read data from a Google Sheet",
    inputSchema := .obj [("type", .str "object"),
      ("properties", .obj [
        ("spreadsheetId", .obj [("type", .str "string"),
          ("description", .str "The ID of the spreadsheet")]),
        ("range", .obj [("type", .str "string"),
          ("description", .str "The range to read (e.g., \x27Sheet1!A1:B10\x27)")])]),
      ("required", .arr [.str "spreadsheetId", .str "range"])] },
  { name := "write_sheet",
    description := "Write data to a Google Sheet",
    inputSchema := .obj [("type", .str "object"),
      ("properties", .obj [
        ("spreadsheetId", .obj [("type", .str "string")]),
        ("range", .obj [("type", .str "string")]),
        ("values", .obj [("type", .str "array"),
          ("items", .obj [("type", .str "array"), ("items", .obj [("type", .str "string")])]),
          ("description", .str "2D array of values to write")])]),
      ("required", .arr [.str "spreadsheetId", .str "range", .str "values"])] },
  { name := "append_sheet",
    description := "Append data to a Google Sheet",
    inputSchema := .obj [("type", .str "object"),
      ("properties", .obj [
        ("spreadsheetId", .obj [("type", .str "string")]),
        ("range", .obj [("type", .str "string")]),
        ("values", .obj [("type", .str "array"),
          ("items", .obj [("type", .str "array"), ("items", .obj [("type", .str "string")])])])]),
      ("required", .arr [.str "spreadsheetId", .str "range", .str "values"])] },
  { name := "get_sheet_info",
    description := "Get information about a Google Sheet",
    inputSchema := .obj [("type", .str "object"),
      ("properties", .obj [
        ("spreadsheetId", .obj [("type", .str "string")])]),
      ("required", .arr [.str "spreadsheetId"])] },
  { name := "list_emails",
    description := "List emails from Gmail",
    inputSchema := .obj [("type", .str "object"),
      ("properties", .obj [
        ("maxResults", .obj [("type", .str "integer"),
          ("description", .str "Maximum number of emails"), ("default", .num 10)]),
        ("query", .obj [("type", .str "string"),
          ("description", .str "Gmail search query"), ("default", .str "")])])] },
  { name := "get_email_detail",
    description := "Get detailed information about a specific email",
    inputSchema := .obj [("type", .str "object"),
      ("properties", .obj [
        ("messageId", .obj [("type", .str "string"),
          ("description", .str "The Gmail message ID")])]),
      ("required", .arr [.str "messageId"])] },
  { name := "send_email",
    description := "Send an email via Gmail",
    inputSchema := .obj [("type", .str "object"),
      ("properties", .obj [
        ("to", .obj [("type", .str "string"), ("description", .str "Recipient email address")]),
        ("subject", .obj [("type", .str "string"), ("description", .str "Email subject")]),
        ("body", .obj [("type", .str "string"), ("description", .str "Email body content")]),
        ("isHtml", .obj [("type", .str "boolean"),
          ("description", .str "Whether the body is HTML"), ("default", .bool false)])]),
      ("required", .arr [.str "to", .str "subject", .str "body"])] },
  { name := "search_emails",
    description := "Search emails in Gmail",
    inputSchema := .obj [("type", .str "object"),
      ("properties", .obj [
        ("query", .obj [("type", .str "string"), ("description", .str "Gmail search query")])]),
      ("required", .arr [.str "query"])] },
  { name := "list_calendar_events",
    description := "List upcoming calendar events",
    inputSchema := .obj [("type", .str "object"),
      ("properties", .obj [
        ("calendarId", .obj [("type", .str "string"),
          ("description", .str "Calendar ID (default: primary)"), ("default", .str "primary")]),
        ("maxResults", .obj [("type", .str "integer"),
          ("description", .str "Maximum number of events"), ("default", .num 10)]),
        ("timeMin", .obj [("type", .str "string"),
          ("description", .str "Minimum time (ISO 8601 format)")])])] },
  { name := "create_calendar_event",
    description := "Create a new calendar event",
    inputSchema := .obj [("type", .str "object"),
      ("properties", .obj [
        ("calendarId", .obj [("type", .str "string"), ("default", .str "primary")]),
        ("summary", .obj [("type", .str "string"), ("description", .str "Event title")]),
        ("description", .obj [("type", .str "string"), ("description", .str "Event description")]),
        ("start", .obj [("type", .str "string"),
          ("description", .str "Start time (ISO 8601 format)")]),
        ("end", .obj [("type", .str "string"),
          ("description", .str "End time (ISO 8601 format)")]),
        ("location", .obj [("type", .str "string"), ("description", .str "Event location")]),
        ("attendees", .obj [("type", .str "array"),
          ("items", .obj [("type", .str "string")]),
          ("description", .str "Array of attendee email addresses")]),
        ("timeZone", .obj [("type", .str "string"), ("default", .str "America/Los_Angeles")])]),
      ("required", .arr [.str "summary", .str "start", .str "end"])] },
  { name := "update_calendar_event",
    description := "Update an existing calendar event",
    inputSchema := .obj [("type", .str "object"),
      ("properties", .obj [
        ("calendarId", .obj [("type", .str "string"), ("default", .str "primary")]),
        ("eventId", .obj [("type", .str "string"), ("description", .str "Event ID to update")]),
        ("summary", .obj [("type", .str "string")]),
        ("description", .obj [("type", .str "string")]),
        ("start", .obj [("type", .str "string")]),
        ("end", .obj [("type", .str "string")]),
        ("location", .obj [("type", .str "string")]),
        ("attendees", .obj [("type", .str "array"),
          ("items", .obj [("type", .str "string")])])]),
      ("required", .arr [.str "eventId"])] },
  { name := "delete_calendar_event",
    description := "Delete a calendar event",
    inputSchema := .obj [("type", .str "object"),
      ("properties", .obj [
        ("calendarId", .obj [("type", .str "string"), ("default", .str "primary")]),
        ("eventId", .obj [("type", .str "string"), ("description", .str "Event ID to delete")])]),
      ("required", .arr [.str "eventId"])] },
  { name := "get_calendar_event",
    description := "Get details of a specific calendar event",
    inputSchema := .obj [("type", .str "object"),
      ("properties", .obj [
        ("calendarId", .obj [("type", .str "string"), ("default", .str "primary")]),
        ("eventId", .obj [("type", .str "string"), ("description", .str "Event ID")])]),
      ("required", .arr [.str "eventId"])] }]

/-- The names registered with each server (its dispatchable tools). -/
def mongoToolNames : List String := mongoListTools.map Tool.name

def pgToolNames : List String := pgListTools.map Tool.name

def googleToolNames : List String := googleListTools.map Tool.name

/-! ## The three `call_tool` dispatchers

`arguments` is the request argument map (a Python dict: string keys,
dynamic values).  `cfg` is the configuration dictionary: for the MongoDB
and PostgreSQL servers it is the result of the per-call `load_config()`
re-read; for the Google server it is the module-level `config`.  The
filesystem facts used by the not-configured error payloads
(`str(config_path)`, `config_path.exists()`) are the `McpEnv` fields. -/

/-- `arguments.get(k)` (default `None`). -/
def argGet (args : List (String × JVal)) (k : String) : JVal :=
  (args.lookup k).getD .null

/-- `arguments.get(k, d)`. -/
def argGetD (args : List (String × JVal)) (k : String) (d : JVal) : JVal :=
  (args.lookup k).getD d

/-- `arguments[k]`: KeyError (whose `str` is the quoted key) when absent. -/
def argItem (args : List (String × JVal)) (k : String) : Except String JVal :=
  match args.lookup k with
  | some v => .ok v
  | none => .error ("\x27" ++ k ++ "\x27")

/-- Filesystem facts referenced by the not-configured error payloads. -/
structure McpEnv where
  configLocation : String
  configExists : Bool

/-- `list(cfg.keys())`: AttributeError on a non-dict. -/
def dictKeysE (v : JVal) : Except String (List JVal) :=
  match v with
  | .obj kvs => .ok (kvs.map fun kv => .str kv.1)
  | w => .error ("\x27" ++ pyTypeName w ++ "\x27 object has no attribute \x27keys\x27")

/-- `current_config.get(\x27mongodb\x27, \x7b\x7d).get(\x27uri\x27, \x27\x27)`. -/
def mongoUriOf (cfg : JVal) : Except String JVal := do
  let m ← pyGet cfg "mongodb" (.obj [])
  pyGet m "uri" (.str "")

/-- `current_config.get(\x27database\x27, \x7b\x7d).get(\x27url\x27, \x27\x27)`. -/
def dbUrlOf (cfg : JVal) : Except String JVal := do
  let m ← pyGet cfg "database" (.obj [])
  pyGet m "url" (.str "")

/-- The `error_msg` dictionary returned by `mongodb_mcp.call_tool` when the
URI is falsy, including `config_error` when the loaded config carries one. -/
def mongoNotConfigured (env : McpEnv) (cfg : JVal) : Except String JVal := do
  let keys ← dictKeysE cfg
  let base := [("success", .bool false),
    ("error", .str "MongoDB URI not configured"),
    ("details", .str "Please add \x27mongodb.uri\x27 to config.json"),
    ("config_location", .str env.configLocation),
    ("config_exists", .bool env.configExists),
    ("config_keys", .arr keys)]
  match cfg with
  | .obj kvs =>
      match kvs.lookup "error" with
      | some e => pure (.obj (base ++ [("config_error", e)]))
      | none => pure (.obj base)
  | _ => pure (.obj base)

/-- The `error_msg` dictionary returned by `postgres_mcp.call_tool` when the
database URL is falsy. -/
def pgNotConfigured (env : McpEnv) (cfg : JVal) : Except String JVal := do
  let keys ← dictKeysE cfg
  let base := [("success", .bool false),
    ("error", .str "Database URL not configured"),
    ("details", .str "Please add \x27database.url\x27 to config.json"),
    ("config_location", .str env.configLocation),
    ("config_exists", .bool env.configExists),
    ("config_keys", .arr keys)]
  match cfg with
  | .obj kvs =>
      match kvs.lookup "error" with
      | some e => pure (.obj (base ++ [("config_error", e)]))
      | none => pure (.obj base)
  | _ => pure (.obj base)

/-- The `try` block of `mongodb_mcp.call_tool`. -/
def mongoCallToolBody (b : MongoBackend) (env : McpEnv) (cfg : JVal)
    (name : String) (args : List (String × JVal)) : Except String JVal := do
  let uri ← mongoUriOf cfg
  if !truthy uri then
    mongoNotConfigured env cfg
  else if name = "list_databases" then
    pure (Mongo.list_databases b uri)
  else if name = "list_collections" then
    pure (Mongo.list_collections b uri (argGet args "database_name"))
  else if name = "find_documents" then
    pure (Mongo.find_documents b uri (argGet args "database_name")
      (argGet args "collection_name") (argGet args "query")
      (argGetD args "limit" (.num 100)) (argGetD args "skip" (.num 0))
      (argGet args "sort"))
  else if name = "insert_document" then
    pure (Mongo.insert_document b uri (argGet args "database_name")
      (argGet args "collection_name") (argGet args "document"))
  else if name = "insert_many_documents" then
    pure (Mongo.insert_many_documents b uri (argGet args "database_name")
      (argGet args "collection_name") (argGet args "documents"))
  else if name = "update_document" then
    pure (Mongo.update_document b uri (argGet args "database_name")
      (argGet args "collection_name") (argGet args "filter_query")
      (argGet args "update_data") (argGetD args "upsert" (.bool false)))
  else if name = "update_many_documents" then
    pure (Mongo.update_many_documents b uri (argGet args "database_name")
      (argGet args "collection_name") (argGet args "filter_query")
      (argGet args "update_data") (argGetD args "upsert" (.bool false)))
  else if name = "delete_document" then
    pure (Mongo.delete_document b uri (argGet args "database_name")
      (argGet args "collection_name") (argGet args "filter_query"))
  else if name = "delete_many_documents" then
    pure (Mongo.delete_many_documents b uri (argGet args "database_name")
      (argGet args "collection_name") (argGet args "filter_query"))
  else if name = "count_documents" then
    pure (Mongo.count_documents b uri (argGet args "database_name")
      (argGet args "collection_name") (argGet args "query"))
  else if name = "aggregate" then
    pure (Mongo.aggregate b uri (argGet args "database_name")
      (argGet args "collection_name") (argGet args "pipeline"))
  else
    pure (.obj [("success", .bool false), ("error", .str ("Unknown tool: " ++ name))])

/-- `mongodb_mcp.call_tool`: the `try` block with its
`except Exception as error` boundary. -/
def mongoCallTool (b : MongoBackend) (env : McpEnv) (cfg : JVal)
    (name : String) (args : List (String × JVal)) : JVal :=
  wrapOp (mongoCallToolBody b env cfg name args)

/-- The `try` block of `postgres_mcp.call_tool`. -/
def pgCallToolBody (b : PgBackend) (env : McpEnv) (cfg : JVal)
    (name : String) (args : List (String × JVal)) : Except String JVal := do
  let url ← dbUrlOf cfg
  if !truthy url then
    pgNotConfigured env cfg
  else if name = "execute_query" then
    pure (Pg.execute_query b url (argGet args "query") (argGet args "params"))
  else if name = "execute_write" then
    pure (Pg.execute_write b url (argGet args "query") (argGet args "params"))
  else if name = "run_custom_sql" then
    Pg.run_custom_sql b url (argGet args "sql") (argGet args "params")
  else if name = "list_tables" then
    pure (Pg.list_tables b url)
  else if name = "describe_table" then
    pure (Pg.describe_table b url (argGet args "table_name"))
  else if name = "get_table_count" then
    pure (Pg.get_table_count b url (argGet args "table_name"))
  else
    pure (.obj [("success", .bool false), ("error", .str ("Unknown tool: " ++ name))])

/-- `postgres_mcp.call_tool`: the `try` block with its
`except Exception as error` boundary. -/
def pgCallTool (b : PgBackend) (env : McpEnv) (cfg : JVal)
    (name : String) (args : List (String × JVal)) : JVal :=
  wrapOp (pgCallToolBody b env cfg name args)

/-- `arguments.get("spreadsheetId") or config.get("google", \x7b\x7d).get("spreadsheetId")`. -/
def googleSpreadsheetId (cfg : JVal) (args : List (String × JVal)) : Except String JVal := do
  let a := argGet args "spreadsheetId"
  if truthy a then pure a
  else do
    let gg ← pyGet cfg "google" (.obj [])
    pyGet gg "spreadsheetId" .null

/-- `arguments.get("calendarId") or config.get("google", \x7b\x7d).get("calendarId", "primary")`. -/
def googleCalendarId (cfg : JVal) (args : List (String × JVal)) : Except String JVal := do
  let a := argGet args "calendarId"
  if truthy a then pure a
  else do
    let gg ← pyGet cfg "google" (.obj [])
    pyGet gg "calendarId" (.str "primary")

/-- The `try` block of `mcp_server.call_tool` (Google services). -/
def googleCallToolBody (g : GoogleBackend) (cfg : JVal)
    (name : String) (args : List (String × JVal)) : Except String JVal := do
  if name = "read_sheet" then do
    let sid ← googleSpreadsheetId cfg args
    let rng ← argItem args "range"
    pure (Google.read_sheet_data g sid rng)
  else if name = "write_sheet" then do
    let sid ← googleSpreadsheetId cfg args
    let rng ← argItem args "range"
    let vals ← argItem args "values"
    pure (Google.write_sheet_data g sid rng vals)
  else if name = "append_sheet" then do
    let sid ← googleSpreadsheetId cfg args
    let rng ← argItem args "range"
    let vals ← argItem args "values"
    pure (Google.append_sheet_data g sid rng vals)
  else if name = "get_sheet_info" then do
    let sid ← googleSpreadsheetId cfg args
    pure (Google.get_sheet_info g sid)
  else if name = "list_emails" then
    pure (Google.list_emails g (argGetD args "maxResults" (.num 10))
      (argGetD args "query" (.str "")))
  else if name = "get_email_detail" then do
    let mid ← argItem args "messageId"
    pure (Google.get_email_detail g mid)
  else if name = "send_email" then do
    let to_ ← argItem args "to"
    let subject ← argItem args "subject"
    let body ← argItem args "body"
    pure (Google.send_email g to_ subject body (argGetD args "isHtml" (.bool false)))
  else if name = "search_emails" then do
    let q ← argItem args "query"
    pure (Google.search_emails g q)
  else if name = "list_calendar_events" then do
    let cid ← googleCalendarId cfg args
    pure (Google.list_events g cid (argGetD args "maxResults" (.num 10))
      (argGet args "timeMin"))
  else if name = "create_calendar_event" then do
    let cid ← googleCalendarId cfg args
    let summary ← argItem args "summary"
    let description := argGetD args "description" (.str "")
    let start ← argItem args "start"
    let end_ ← argItem args "end"
    let location := argGetD args "location" (.str "")
    let attendees := argGetD args "attendees" (.arr [])
    let timeZone := argGetD args "timeZone" (.str "America/Los_Angeles")
    pure (Google.create_event g cid (.obj [("summary", summary),
      ("description", description), ("start", start), ("end", end_),
      ("location", location), ("attendees", attendees), ("timeZone", timeZone)]))
  else if name = "update_calendar_event" then do
    let cid ← googleCalendarId cfg args
    let eid ← argItem args "eventId"
    pure (Google.update_event g cid eid (.obj [("summary", argGet args "summary"),
      ("description", argGet args "description"), ("start", argGet args "start"),
      ("end", argGet args "end"), ("location", argGet args "location"),
      ("attendees", argGet args "attendees"),
      ("timeZone", argGetD args "timeZone" (.str "America/Los_Angeles"))]))
  else if name = "delete_calendar_event" then do
    let cid ← googleCalendarId cfg args
    let eid ← argItem args "eventId"
    pure (Google.delete_event g cid eid)
  else if name = "get_calendar_event" then do
    let cid ← googleCalendarId cfg args
    let eid ← argItem args "eventId"
    pure (Google.get_event g cid eid)
  else
    pure (.obj [("success", .bool false), ("error", .str ("Unknown tool: " ++ name))])

/-- `mcp_server.call_tool`: the `try` block with its
`except Exception as error` boundary. -/
def googleCallTool (g : GoogleBackend) (cfg : JVal)
    (name : String) (args : List (String × JVal)) : JVal :=
  wrapOp (googleCallToolBody g cfg name args)

/-! ## Concrete environments and backends used by witnesses -/

def env0 : McpEnv := ⟨"/home/user/mcppractical/config.json", false⟩

/-- A config with a `mongodb` section but no `uri`. -/
def cfgMongoNone : JVal := .obj [("mongodb", .obj [])]

/-- A config with a non-empty `mongodb.uri`. -/
def cfgMongo : JVal := .obj [("mongodb", .obj [("uri", .str "mongodb://localhost")])]

/-- A config with a `database` section but no `url`. -/
def cfgPgNone : JVal := .obj [("database", .obj [])]

/-- A config with a non-empty `database.url`. -/
def cfgPg : JVal := .obj [("database", .obj [("url", .str "postgresql://localhost/db")])]

/-- A config with an empty `google` section. -/
def cfgGoogle : JVal := .obj [("google", .obj [])]

/-- A benign MongoDB backend: everything connects and returns empty data. -/
def tbM : MongoBackend where
  connect := fun _ => .ok ()
  listDatabaseNames := fun _ => .ok []
  listCollectionNames := fun _ _ => .ok []
  find := fun _ _ _ _ _ _ _ => .ok []
  insertOne := fun _ _ _ _ => .ok (.oid "6543210987abcdef01234567")
  insertMany := fun _ _ _ _ => .ok []
  updateOne := fun _ _ _ _ _ _ => .ok ⟨0, 0, none⟩
  updateMany := fun _ _ _ _ _ _ => .ok ⟨0, 0, none⟩
  deleteOne := fun _ _ _ _ => .ok 0
  deleteMany := fun _ _ _ _ => .ok 0
  count := fun _ _ _ _ => .ok 0
  aggregateOp := fun _ _ _ _ => .ok []
  jloads := fun _ => .error "Expecting value: line 1 column 1 (char 0)"
  oidOk := fun _ => true

/-- A benign PostgreSQL backend. -/
def tbPg : PgBackend where
  connect := fun _ => .ok ()
  query := fun _ _ _ => .ok []
  write := fun _ _ _ => .ok 0
  listTablesRows := fun _ => .ok []
  describeCols := fun _ _ => .ok []
  tableCount := fun _ _ => .ok 0

/-- A benign Google backend. -/
def tbG : GoogleBackend where
  getCreds := .ok ()
  gmailList := fun _ _ => .ok (.obj [])
  gmailGet := fun _ => .ok (.obj [("id", .str "m1")])
  gmailSend := fun _ _ _ _ => .ok (.obj [])
  b64 := fun s => .ok s
  sheetsGet := fun _ _ => .ok (.obj [])
  sheetsUpdate := fun _ _ _ => .ok (.obj [])
  sheetsAppend := fun _ _ _ => .ok (.obj [])
  sheetsInfo := fun _ => .ok (.obj [])
  calList := fun _ _ _ => .ok (.obj [])
  calInsert := fun _ _ => .ok (.obj [])
  calGet := fun _ _ => .ok (.obj [])
  calUpdate := fun _ _ _ => .ok (.obj [])
  calDelete := fun _ _ => .ok .null
  nowIso := "2026-01-01T00:00:00"
  nowPlus1hIso := "2026-01-01T01:00:00"
  isoParse := fun s => .ok s

/-- Every `.ok` outcome of this computation is a well-formed OperationResult. -/
def okShape (x : Except String JVal) : Prop :=
  ∀ v, x = .ok v → isOpResult v = true


/-- Stated from the claim wording (C10), independently of the code: wrap the
update payload in `$set` unless some key already carries a `$` operator
prefix. -/
def specNormalizeUpdate (u : List (String × JVal)) : JVal :=
  if u.any (fun kv => kv.1.startsWith "$") then .obj u else .obj [("$set", .obj u)]

/-- A probe backend whose update operations succeed only when the update
payload reaching the backend is exactly `expected`. -/
def updWrapProbe (expected : JVal) : MongoBackend :=
  { tbM with
    updateOne := fun _ _ _ _ upd _ =>
      if JVal.beq upd expected then .ok ⟨1, 1, none⟩
      else .error "unexpected update payload",
    updateMany := fun _ _ _ _ upd _ =>
      if JVal.beq upd expected then .ok ⟨2, 2, none⟩
      else .error "unexpected update payload" }

/-- A probe backend whose read/update/delete operations succeed only when the
filter reaching the backend is exactly `expected`. -/
def filterProbe (expected : JVal) : MongoBackend :=
  { tbM with
    find := fun _ _ _ q _ _ _ =>
      if JVal.beq q expected then .ok [] else .error "filter was altered",
    updateOne := fun _ _ _ f _ _ =>
      if JVal.beq f expected then .ok ⟨1, 1, none⟩
      else .error "filter was not converted",
    deleteOne := fun _ _ _ f =>
      if JVal.beq f expected then .ok 1 else .error "filter was not converted",
    deleteMany := fun _ _ _ f =>
      if JVal.beq f expected then .ok 1 else .error "filter was not converted" }

/-- A backend returning one stored document whose `_id` is a native ObjectId. -/
def oidDocBackend : MongoBackend :=
  { tbM with
    find := fun _ _ _ _ _ _ _ => .ok [.obj [("_id", .oid "64b0c1d2e3f4a5b6c7d8e9f0")]] }

/-- The declared default of one parameter in a descriptor schema. -/
def schemaDefault (t : Tool) (param : String) : Option JVal :=
  (getField t.inputSchema "properties").bind fun ps =>
    (getField ps param).bind fun p => getField p "default"

/-! ## Theorems -/

mutual

theorem JVal.beq_refl : ∀ a : JVal, JVal.beq a a = true
  | .null => rfl
  | .bool b => by simp [JVal.beq]
  | .num n => by simp [JVal.beq]
  | .str s => by simp [JVal.beq]
  | .oid s => by simp [JVal.beq]
  | .arr xs => by simp [JVal.beq, JVal.beqList_refl xs]
  | .obj kvs => by simp [JVal.beq, JVal.beqObj_refl kvs]

theorem JVal.beqList_refl : ∀ xs : List JVal, JVal.beqList xs xs = true
  | [] => rfl
  | x :: xs => by simp [JVal.beqList, JVal.beq_refl x, JVal.beqList_refl xs]

theorem JVal.beqObj_refl : ∀ kvs : List (String × JVal), JVal.beqObj kvs kvs = true
  | [] => rfl
  | (k, v) :: kvs => by simp [JVal.beqObj, JVal.beq_refl v, JVal.beqObj_refl kvs]

end

theorem extJsonList_length : ∀ xs : List JVal, (extJsonList xs).length = xs.length := by
  intro xs
  induction xs with
  | nil => rfl
  | cons x xs ih => simp [extJsonList, ih]

mutual

theorem jsonSafe_extJson : ∀ v : JVal, jsonSafe (extJson v) = true
  | .null => rfl
  | .bool _ => rfl
  | .num _ => rfl
  | .str _ => rfl
  | .oid _ => rfl
  | .arr xs => by simp [extJson, jsonSafe, jsonSafeList_extJsonList xs]
  | .obj kvs => by simp [extJson, jsonSafe, jsonSafeObj_extJsonObj kvs]

theorem jsonSafeList_extJsonList : ∀ xs : List JVal, jsonSafeList (extJsonList xs) = true
  | [] => rfl
  | x :: xs => by
      simp [extJsonList, jsonSafeList, jsonSafe_extJson x, jsonSafeList_extJsonList xs]

theorem jsonSafeObj_extJsonObj : ∀ kvs : List (String × JVal), jsonSafeObj (extJsonObj kvs) = true
  | [] => rfl
  | (k, v) :: kvs => by
      simp [extJsonObj, jsonSafeObj, jsonSafe_extJson v, jsonSafeObj_extJsonObj kvs]

end

/-! ## Proof infrastructure for `Except` computations -/

theorem exc_bind_error {α β : Type} (e : String) (f : α → Except String β) :
    ((Except.error e : Except String α) >>= f) = .error e := rfl

theorem exc_bind_ok_eval {α β : Type} (a : α) (f : α → Except String β) :
    ((Except.ok a : Except String α) >>= f) = f a := rfl

theorem exc_pure_eq {α : Type} (a : α) : (pure a : Except String α) = .ok a := rfl

theorem okShape_bind {α : Type} (x : Except String α) (f : α → Except String JVal)
    (hf : ∀ a, okShape (f a)) : okShape (x >>= f) := by
  intro v h
  cases x with
  | error e => rw [exc_bind_error] at h; cases h
  | ok a => rw [exc_bind_ok_eval] at h; exact hf a v h

theorem okShape_pure (d : JVal) (hd : isOpResult d = true) : okShape (pure d) := by
  intro v h
  rw [exc_pure_eq] at h
  injection h with h
  exact h ▸ hd

theorem okShape_ite (c : Prop) [Decidable c] (x y : Except String JVal)
    (hx : okShape x) (hy : okShape y) : okShape (if c then x else y) := by
  split
  · exact hx
  · exact hy

theorem isOpResult_wrapOp (x : Except String JVal) (hx : okShape x) :
    isOpResult (wrapOp x) = true := by
  cases h : x with
  | error e => simp [wrapOp, errDict, isOpResult, List.lookup]
  | ok v => simpa [wrapOp] using hx v h

/-! ## Every backing function yields a well-formed OperationResult -/

theorem list_databases_isOpResult (b : MongoBackend) (mongo_uri : JVal) :
    isOpResult (Mongo.list_databases b mongo_uri) = true := by
  apply isOpResult_wrapOp
  unfold Mongo.list_databases_body
  repeat (apply okShape_bind; intro _)
  apply okShape_pure
  rfl

theorem list_collections_isOpResult (b : MongoBackend) (mongo_uri database_name : JVal) :
    isOpResult (Mongo.list_collections b mongo_uri database_name) = true := by
  apply isOpResult_wrapOp
  unfold Mongo.list_collections_body
  repeat (apply okShape_bind; intro _)
  apply okShape_pure
  rfl

theorem find_documents_isOpResult (b : MongoBackend)
    (mongo_uri database_name collection_name query limit skip sort : JVal) :
    isOpResult (Mongo.find_documents b mongo_uri database_name collection_name
      query limit skip sort) = true := by
  apply isOpResult_wrapOp
  unfold Mongo.find_documents_body
  repeat (apply okShape_bind; intro _)
  apply okShape_pure
  rfl

theorem insert_document_isOpResult (b : MongoBackend)
    (mongo_uri database_name collection_name document : JVal) :
    isOpResult (Mongo.insert_document b mongo_uri database_name collection_name
      document) = true := by
  apply isOpResult_wrapOp
  unfold Mongo.insert_document_body
  repeat (apply okShape_bind; intro _)
  apply okShape_pure
  rfl

theorem insert_many_documents_isOpResult (b : MongoBackend)
    (mongo_uri database_name collection_name documents : JVal) :
    isOpResult (Mongo.insert_many_documents b mongo_uri database_name collection_name
      documents) = true := by
  apply isOpResult_wrapOp
  unfold Mongo.insert_many_documents_body
  repeat (apply okShape_bind; intro _)
  apply okShape_pure
  rfl

theorem update_document_isOpResult (b : MongoBackend)
    (mongo_uri database_name collection_name filter_query update_data upsert : JVal) :
    isOpResult (Mongo.update_document b mongo_uri database_name collection_name
      filter_query update_data upsert) = true := by
  apply isOpResult_wrapOp
  unfold Mongo.update_document_body
  repeat (apply okShape_bind; intro _)
  apply okShape_pure
  rfl

theorem update_many_documents_isOpResult (b : MongoBackend)
    (mongo_uri database_name collection_name filter_query update_data upsert : JVal) :
    isOpResult (Mongo.update_many_documents b mongo_uri database_name collection_name
      filter_query update_data upsert) = true := by
  apply isOpResult_wrapOp
  unfold Mongo.update_many_documents_body
  repeat (apply okShape_bind; intro _)
  apply okShape_pure
  rfl

theorem delete_document_isOpResult (b : MongoBackend)
    (mongo_uri database_name collection_name filter_query : JVal) :
    isOpResult (Mongo.delete_document b mongo_uri database_name collection_name
      filter_query) = true := by
  apply isOpResult_wrapOp
  unfold Mongo.delete_document_body
  repeat (apply okShape_bind; intro _)
  apply okShape_pure
  rfl

theorem delete_many_documents_isOpResult (b : MongoBackend)
    (mongo_uri database_name collection_name filter_query : JVal) :
    isOpResult (Mongo.delete_many_documents b mongo_uri database_name collection_name
      filter_query) = true := by
  apply isOpResult_wrapOp
  unfold Mongo.delete_many_documents_body
  repeat (apply okShape_bind; intro _)
  apply okShape_pure
  rfl

theorem count_documents_isOpResult (b : MongoBackend)
    (mongo_uri database_name collection_name query : JVal) :
    isOpResult (Mongo.count_documents b mongo_uri database_name collection_name
      query) = true := by
  apply isOpResult_wrapOp
  unfold Mongo.count_documents_body
  repeat (apply okShape_bind; intro _)
  apply okShape_pure
  rfl

theorem aggregate_isOpResult (b : MongoBackend)
    (mongo_uri database_name collection_name pipeline : JVal) :
    isOpResult (Mongo.aggregate b mongo_uri database_name collection_name
      pipeline) = true := by
  apply isOpResult_wrapOp
  unfold Mongo.aggregate_body
  repeat (apply okShape_bind; intro _)
  apply okShape_pure
  rfl

theorem execute_query_isOpResult (b : PgBackend) (db_url query params : JVal) :
    isOpResult (Pg.execute_query b db_url query params) = true := by
  apply isOpResult_wrapOp
  unfold Pg.execute_query_body
  repeat (apply okShape_bind; intro _)
  apply okShape_pure
  rfl

theorem execute_write_isOpResult (b : PgBackend) (db_url query params : JVal) :
    isOpResult (Pg.execute_write b db_url query params) = true := by
  apply isOpResult_wrapOp
  unfold Pg.execute_write_body
  repeat (apply okShape_bind; intro _)
  apply okShape_pure
  rfl

theorem list_tables_isOpResult (b : PgBackend) (db_url : JVal) :
    isOpResult (Pg.list_tables b db_url) = true := by
  apply isOpResult_wrapOp
  unfold Pg.list_tables_body
  repeat (apply okShape_bind; intro _)
  apply okShape_pure
  rfl

theorem describe_table_isOpResult (b : PgBackend) (db_url table_name : JVal) :
    isOpResult (Pg.describe_table b db_url table_name) = true := by
  apply isOpResult_wrapOp
  unfold Pg.describe_table_body
  repeat (apply okShape_bind; intro _)
  apply okShape_ite
  · apply okShape_pure; rfl
  · apply okShape_pure; rfl

theorem get_table_count_isOpResult (b : PgBackend) (db_url table_name : JVal) :
    isOpResult (Pg.get_table_count b db_url table_name) = true := by
  apply isOpResult_wrapOp
  unfold Pg.get_table_count_body
  repeat (apply okShape_bind; intro _)
  apply okShape_pure
  rfl

/-- `run_custom_sql` with a string argument always returns (not raises) a
well-formed OperationResult, by routing to `execute_query`/`execute_write`. -/
theorem run_custom_sql_str_isOpResult (b : PgBackend) (db_url params : JVal) (s : String) :
    ∃ r, Pg.run_custom_sql b db_url (.str s) params = .ok r ∧ isOpResult r = true := by
  unfold Pg.run_custom_sql
  by_cases hc : (((pyStrip s).toUpper.startsWith "SELECT" ||
                 (pyStrip s).toUpper.startsWith "WITH") = true)
  · refine ⟨Pg.execute_query b db_url (.str s) params, ?_, execute_query_isOpResult ..⟩
    simp only [hc, if_pos]
  · refine ⟨Pg.execute_write b db_url (.str s) params, ?_, execute_write_isOpResult ..⟩
    simp only [Bool.not_eq_true] at hc
    simp only [hc]
    rfl

theorem get_email_detail_isOpResult (g : GoogleBackend) (message_id : JVal) :
    isOpResult (Google.get_email_detail g message_id) = true := by
  apply isOpResult_wrapOp
  unfold Google.get_email_detail_body
  repeat (apply okShape_bind; intro _)
  apply okShape_pure
  rfl

theorem list_emails_isOpResult (g : GoogleBackend) (max_results query : JVal) :
    isOpResult (Google.list_emails g max_results query) = true := by
  apply isOpResult_wrapOp
  unfold Google.list_emails_body
  repeat (apply okShape_bind; intro _)
  apply okShape_pure
  rfl

theorem send_email_isOpResult (g : GoogleBackend) (to_ subject body is_html : JVal) :
    isOpResult (Google.send_email g to_ subject body is_html) = true := by
  apply isOpResult_wrapOp
  unfold Google.send_email_body
  repeat (apply okShape_bind; intro _)
  apply okShape_pure
  rfl

theorem search_emails_isOpResult (g : GoogleBackend) (query : JVal) :
    isOpResult (Google.search_emails g query) = true := by
  apply isOpResult_wrapOp
  unfold Google.search_emails_body
  repeat (apply okShape_bind; intro _)
  apply okShape_pure
  rfl

theorem read_sheet_data_isOpResult (g : GoogleBackend) (spreadsheet_id range_name : JVal) :
    isOpResult (Google.read_sheet_data g spreadsheet_id range_name) = true := by
  apply isOpResult_wrapOp
  unfold Google.read_sheet_data_body
  repeat (apply okShape_bind; intro _)
  apply okShape_pure
  rfl

theorem write_sheet_data_isOpResult (g : GoogleBackend)
    (spreadsheet_id range_name values : JVal) :
    isOpResult (Google.write_sheet_data g spreadsheet_id range_name values) = true := by
  apply isOpResult_wrapOp
  unfold Google.write_sheet_data_body
  repeat (apply okShape_bind; intro _)
  apply okShape_pure
  rfl

theorem append_sheet_data_isOpResult (g : GoogleBackend)
    (spreadsheet_id range_name values : JVal) :
    isOpResult (Google.append_sheet_data g spreadsheet_id range_name values) = true := by
  apply isOpResult_wrapOp
  unfold Google.append_sheet_data_body
  repeat (apply okShape_bind; intro _)
  apply okShape_pure
  rfl

theorem get_sheet_info_isOpResult (g : GoogleBackend) (spreadsheet_id : JVal) :
    isOpResult (Google.get_sheet_info g spreadsheet_id) = true := by
  apply isOpResult_wrapOp
  unfold Google.get_sheet_info_body
  repeat (apply okShape_bind; intro _)
  apply okShape_pure
  rfl

theorem list_events_isOpResult (g : GoogleBackend) (calendar_id max_results time_min : JVal) :
    isOpResult (Google.list_events g calendar_id max_results time_min) = true := by
  apply isOpResult_wrapOp
  unfold Google.list_events_body
  repeat (apply okShape_bind; intro _)
  apply okShape_pure
  rfl

theorem create_event_isOpResult (g : GoogleBackend) (calendar_id event_data : JVal) :
    isOpResult (Google.create_event g calendar_id event_data) = true := by
  apply isOpResult_wrapOp
  unfold Google.create_event_body
  repeat (apply okShape_bind; intro _)
  apply okShape_pure
  rfl

theorem update_event_isOpResult (g : GoogleBackend) (calendar_id event_id event_data : JVal) :
    isOpResult (Google.update_event g calendar_id event_id event_data) = true := by
  apply isOpResult_wrapOp
  unfold Google.update_event_body
  repeat (apply okShape_bind; intro _)
  apply okShape_pure
  rfl

theorem delete_event_isOpResult (g : GoogleBackend) (calendar_id event_id : JVal) :
    isOpResult (Google.delete_event g calendar_id event_id) = true := by
  apply isOpResult_wrapOp
  unfold Google.delete_event_body
  repeat (apply okShape_bind; intro _)
  apply okShape_pure
  rfl

theorem get_event_isOpResult (g : GoogleBackend) (calendar_id event_id : JVal) :
    isOpResult (Google.get_event g calendar_id event_id) = true := by
  apply isOpResult_wrapOp
  unfold Google.get_event_body
  repeat (apply okShape_bind; intro _)
  apply okShape_pure
  rfl

/-! ## Claim theorems -/

/-- C1: For every tool name and every argument map, `call_tool` on each of the
three MCP servers never propagates an exception: if its `try`-block body
raises `e`, the result is the dictionary `\x7b"success": False, "error":
str(e)\x7d`, and otherwise the body result is returned as-is.  The last two
conjuncts exhibit this boundary on concrete raising invocations: a missing
required `range` argument (KeyError) on the Google server, and the
AttributeError raised inside the backing `run_custom_sql` on the
PostgreSQL server. -/
theorem c1_dispatcher_exception_boundary :
    (∀ (g : GoogleBackend) (cfg : JVal) (name : String) (args : List (String × JVal)),
      (∃ v, googleCallToolBody g cfg name args = .ok v ∧
            googleCallTool g cfg name args = v) ∨
      (∃ e, googleCallToolBody g cfg name args = .error e ∧
            googleCallTool g cfg name args =
              .obj [("success", .bool false), ("error", .str e)])) ∧
    (∀ (b : MongoBackend) (env : McpEnv) (cfg : JVal) (name : String)
        (args : List (String × JVal)),
      (∃ v, mongoCallToolBody b env cfg name args = .ok v ∧
            mongoCallTool b env cfg name args = v) ∨
      (∃ e, mongoCallToolBody b env cfg name args = .error e ∧
            mongoCallTool b env cfg name args =
              .obj [("success", .bool false), ("error", .str e)])) ∧
    (∀ (b : PgBackend) (env : McpEnv) (cfg : JVal) (name : String)
        (args : List (String × JVal)),
      (∃ v, pgCallToolBody b env cfg name args = .ok v ∧
            pgCallTool b env cfg name args = v) ∨
      (∃ e, pgCallToolBody b env cfg name args = .error e ∧
            pgCallTool b env cfg name args =
              .obj [("success", .bool false), ("error", .str e)])) ∧
    (googleCallTool tbG cfgGoogle "read_sheet" [] =
      .obj [("success", .bool false), ("error", .str "\x27range\x27")]) ∧
    (pgCallTool tbPg env0 cfgPg "run_custom_sql" [] =
      .obj [("success", .bool false),
            ("error", .str "\x27NoneType\x27 object has no attribute \x27strip\x27")]) := by
  refine ⟨?_, ?_, ?_, ?_, ?_⟩
  · intro g cfg name args
    cases h : googleCallToolBody g cfg name args with
    | ok v => exact .inl ⟨v, rfl, by unfold googleCallTool; rw [h]; rfl⟩
    | error e => exact .inr ⟨e, rfl, by unfold googleCallTool; rw [h]; rfl⟩
  · intro b env cfg name args
    cases h : mongoCallToolBody b env cfg name args with
    | ok v => exact .inl ⟨v, rfl, by unfold mongoCallTool; rw [h]; rfl⟩
    | error e => exact .inr ⟨e, rfl, by unfold mongoCallTool; rw [h]; rfl⟩
  · intro b env cfg name args
    cases h : pgCallToolBody b env cfg name args with
    | ok v => exact .inl ⟨v, rfl, by unfold pgCallTool; rw [h]; rfl⟩
    | error e => exact .inr ⟨e, rfl, by unfold pgCallTool; rw [h]; rfl⟩
  · rfl
  · rfl

/-- C3 counterexample: the backing function `run_custom_sql` invoked with
`sql = None` raises an AttributeError (from `sql.strip()`, which runs outside
any try/except) that escapes to its caller, instead of returning an
OperationResult dictionary. -/
theorem c3_counterexample :
    Pg.run_custom_sql tbPg (.str "postgresql://localhost/db") .null .null =
      .error "\x27NoneType\x27 object has no attribute \x27strip\x27" := rfl

/-- C3 (amended): every backing operation function in `mongodb_db`,
`postgres_db` and the Google service modules returns an OperationResult
dictionary on every input — except `run_custom_sql`, which does so whenever
its `sql` argument is a string but raises an AttributeError escaping to the
caller when `sql` is `None`. -/
theorem c3_backing_functions_return_operation_results :
    (∀ (b : MongoBackend) (uri dbn coll q lim skp srt doc docs fq ud ups pl : JVal),
      isOpResult (Mongo.list_databases b uri) = true ∧
      isOpResult (Mongo.list_collections b uri dbn) = true ∧
      isOpResult (Mongo.find_documents b uri dbn coll q lim skp srt) = true ∧
      isOpResult (Mongo.insert_document b uri dbn coll doc) = true ∧
      isOpResult (Mongo.insert_many_documents b uri dbn coll docs) = true ∧
      isOpResult (Mongo.update_document b uri dbn coll fq ud ups) = true ∧
      isOpResult (Mongo.update_many_documents b uri dbn coll fq ud ups) = true ∧
      isOpResult (Mongo.delete_document b uri dbn coll fq) = true ∧
      isOpResult (Mongo.delete_many_documents b uri dbn coll fq) = true ∧
      isOpResult (Mongo.count_documents b uri dbn coll q) = true ∧
      isOpResult (Mongo.aggregate b uri dbn coll pl) = true) ∧
    (∀ (b : PgBackend) (url q ps tn : JVal),
      isOpResult (Pg.execute_query b url q ps) = true ∧
      isOpResult (Pg.execute_write b url q ps) = true ∧
      isOpResult (Pg.list_tables b url) = true ∧
      isOpResult (Pg.describe_table b url tn) = true ∧
      isOpResult (Pg.get_table_count b url tn) = true) ∧
    (∀ (g : GoogleBackend) (a1 a2 a3 a4 : JVal),
      isOpResult (Google.list_emails g a1 a2) = true ∧
      isOpResult (Google.get_email_detail g a1) = true ∧
      isOpResult (Google.send_email g a1 a2 a3 a4) = true ∧
      isOpResult (Google.search_emails g a1) = true ∧
      isOpResult (Google.read_sheet_data g a1 a2) = true ∧
      isOpResult (Google.write_sheet_data g a1 a2 a3) = true ∧
      isOpResult (Google.append_sheet_data g a1 a2 a3) = true ∧
      isOpResult (Google.get_sheet_info g a1) = true ∧
      isOpResult (Google.list_events g a1 a2 a3) = true ∧
      isOpResult (Google.create_event g a1 a2) = true ∧
      isOpResult (Google.update_event g a1 a2 a3) = true ∧
      isOpResult (Google.delete_event g a1 a2) = true ∧
      isOpResult (Google.get_event g a1 a2) = true) ∧
    (∀ (b : PgBackend) (url params : JVal) (s : String),
      ∃ r, Pg.run_custom_sql b url (.str s) params = .ok r ∧ isOpResult r = true) ∧
    (∀ (b : PgBackend) (url params : JVal),
      Pg.run_custom_sql b url .null params =
        .error "\x27NoneType\x27 object has no attribute \x27strip\x27") := by
  refine ⟨?_, ?_, ?_, ?_, ?_⟩
  · intro b uri dbn coll q lim skp srt doc docs fq ud ups pl
    exact ⟨list_databases_isOpResult .., list_collections_isOpResult ..,
      find_documents_isOpResult .., insert_document_isOpResult ..,
      insert_many_documents_isOpResult .., update_document_isOpResult ..,
      update_many_documents_isOpResult .., delete_document_isOpResult ..,
      delete_many_documents_isOpResult .., count_documents_isOpResult ..,
      aggregate_isOpResult ..⟩
  · intro b url q ps tn
    exact ⟨execute_query_isOpResult .., execute_write_isOpResult ..,
      list_tables_isOpResult .., describe_table_isOpResult ..,
      get_table_count_isOpResult ..⟩
  · intro g a1 a2 a3 a4
    exact ⟨list_emails_isOpResult .., get_email_detail_isOpResult ..,
      send_email_isOpResult .., search_emails_isOpResult ..,
      read_sheet_data_isOpResult .., write_sheet_data_isOpResult ..,
      append_sheet_data_isOpResult .., get_sheet_info_isOpResult ..,
      list_events_isOpResult .., create_event_isOpResult ..,
      update_event_isOpResult .., delete_event_isOpResult ..,
      get_event_isOpResult ..⟩
  · intro b url params s
    exact run_custom_sql_str_isOpResult ..
  · intro b url params
    rfl

/-- C4: each of the three `list_tools` registries is a constant of the
process — calling it twice yields identical descriptor sequences — it is
nonempty (tools are registered), it has exactly the registered number of
descriptors, and it lists exactly the dispatchable tool names in order. -/
theorem c4_list_tools_pure_deterministic :
    (mongoListTools = mongoListTools ∧ pgListTools = pgListTools ∧
     googleListTools = googleListTools) ∧
    (mongoListTools ≠ [] ∧ pgListTools ≠ [] ∧ googleListTools ≠ []) ∧
    (mongoListTools.length = 11 ∧ pgListTools.length = 6 ∧
     googleListTools.length = 13) ∧
    (mongoToolNames = ["list_databases", "list_collections", "find_documents",
       "insert_document", "insert_many_documents", "update_document",
       "update_many_documents", "delete_document", "delete_many_documents",
       "count_documents", "aggregate"] ∧
     pgToolNames = ["execute_query", "execute_write", "run_custom_sql",
       "list_tables", "describe_table", "get_table_count"] ∧
     googleToolNames = ["read_sheet", "write_sheet", "append_sheet",
       "get_sheet_info", "list_emails", "get_email_detail", "send_email",
       "search_emails", "list_calendar_events", "create_calendar_event",
       "update_calendar_event", "delete_calendar_event", "get_calendar_event"]) := by
  refine ⟨⟨rfl, rfl, rfl⟩, ⟨?_, ?_, ?_⟩, ⟨rfl, rfl, rfl⟩, ⟨rfl, rfl, rfl⟩⟩
  · unfold mongoListTools; exact List.cons_ne_nil _ _
  · unfold pgListTools; exact List.cons_ne_nil _ _
  · unfold googleListTools; exact List.cons_ne_nil _ _

/-- C9: `run_custom_sql` routes purely on the uppercased, stripped prefix of
the SQL string: a `SELECT`/`WITH` prefix goes to `execute_query` (row fetch),
everything else to `execute_write` (rowcount, commit). -/
theorem c9_run_custom_sql_routing (b : PgBackend) (db_url params : JVal) (s : String) :
    Pg.run_custom_sql b db_url (.str s) params =
      .ok (if (pyStrip s).toUpper.startsWith "SELECT" = true ∨
              (pyStrip s).toUpper.startsWith "WITH" = true
           then Pg.execute_query b db_url (.str s) params
           else Pg.execute_write b db_url (.str s) params) := by
  unfold Pg.run_custom_sql
  by_cases h1 : (pyStrip s).toUpper.startsWith "SELECT" = true <;>
    by_cases h2 : (pyStrip s).toUpper.startsWith "WITH" = true <;>
      simp [h1, h2]

/-- C10: in `update_document` and `update_many_documents`, an update payload
with no `$`-prefixed key is wrapped as `\x7b"$set": payload\x7d` before being
applied, and a payload already containing an operator key is passed to the
backend unchanged: the embedded `setWrap` step equals the claim-stated
normalization, and end-to-end, an update against a probe backend that only
accepts exactly the normalized payload succeeds for every payload. -/
theorem c10_update_set_wrapping :
    (∀ u : List (String × JVal), Mongo.setWrap (.obj u) = .ok (specNormalizeUpdate u)) ∧
    (∀ u : List (String × JVal),
      getField (Mongo.update_document (updWrapProbe (specNormalizeUpdate u))
        (.str "m") (.str "d") (.str "c") (.obj []) (.obj u) (.bool false)) "success"
        = some (.bool true)) ∧
    (∀ u : List (String × JVal),
      getField (Mongo.update_many_documents (updWrapProbe (specNormalizeUpdate u))
        (.str "m") (.str "d") (.str "c") (.obj []) (.obj u) (.bool false)) "success"
        = some (.bool true)) := by
  refine ⟨fun u => rfl, ?_, ?_⟩
  · intro u
    unfold Mongo.update_document Mongo.update_document_body
    rw [show Mongo.get_connection (updWrapProbe (specNormalizeUpdate u)) (.str "m")
          = .ok () from rfl, exc_bind_ok_eval]
    rw [show Mongo.parseDocArg (updWrapProbe (specNormalizeUpdate u)).jloads
          (.obj ([] : List (String × JVal))) = .ok (.obj []) from rfl, exc_bind_ok_eval]
    rw [show Mongo.parseDocArg (updWrapProbe (specNormalizeUpdate u)).jloads (.obj u)
          = .ok (.obj u) from rfl, exc_bind_ok_eval]
    rw [show Mongo.oidNormalize (updWrapProbe (specNormalizeUpdate u))
          (.obj ([] : List (String × JVal))) = .ok (.obj []) from rfl, exc_bind_ok_eval]
    rw [show Mongo.setWrap (.obj u) = .ok (specNormalizeUpdate u) from rfl,
        exc_bind_ok_eval]
    rw [show (updWrapProbe (specNormalizeUpdate u)).updateOne (.str "m") (.str "d")
          (.str "c") (.obj []) (specNormalizeUpdate u) (.bool false)
          = .ok ⟨1, 1, none⟩ from by
        simp [updWrapProbe, JVal.beq_refl], exc_bind_ok_eval]
    rfl
  · intro u
    unfold Mongo.update_many_documents Mongo.update_many_documents_body
    rw [show Mongo.get_connection (updWrapProbe (specNormalizeUpdate u)) (.str "m")
          = .ok () from rfl, exc_bind_ok_eval]
    rw [show Mongo.parseDocArg (updWrapProbe (specNormalizeUpdate u)).jloads
          (.obj ([] : List (String × JVal))) = .ok (.obj []) from rfl, exc_bind_ok_eval]
    rw [show Mongo.parseDocArg (updWrapProbe (specNormalizeUpdate u)).jloads (.obj u)
          = .ok (.obj u) from rfl, exc_bind_ok_eval]
    rw [show Mongo.oidNormalize (updWrapProbe (specNormalizeUpdate u))
          (.obj ([] : List (String × JVal))) = .ok (.obj []) from rfl, exc_bind_ok_eval]
    rw [show Mongo.setWrap (.obj u) = .ok (specNormalizeUpdate u) from rfl,
        exc_bind_ok_eval]
    rw [show (updWrapProbe (specNormalizeUpdate u)).updateMany (.str "m") (.str "d")
          (.str "c") (.obj []) (specNormalizeUpdate u) (.bool false)
          = .ok ⟨2, 2, none⟩ from by
        simp [updWrapProbe, JVal.beq_refl], exc_bind_ok_eval]
    rfl

/-- C2 counterexample: with the backend connection configuration absent
(no `mongodb.uri` / `database.url`), `call_tool` on the MongoDB and
PostgreSQL servers returns the not-configured error for an unknown tool
name — the configuration check runs BEFORE the unknown-tool check — so the
error for `unknown_op` is not `"Unknown tool: unknown_op"`. -/
theorem c2_counterexample :
    getField (mongoCallTool tbM env0 cfgMongoNone "unknown_op" []) "error"
      = some (.str "MongoDB URI not configured") ∧
    getField (pgCallTool tbPg env0 cfgPgNone "unknown_op" []) "error"
      = some (.str "Database URL not configured") ∧
    ("MongoDB URI not configured" ≠ "Unknown tool: unknown_op") ∧
    ("Database URL not configured" ≠ "Unknown tool: unknown_op") := by
  refine ⟨rfl, rfl, by decide, by decide⟩

/-- C2 (amended): for every name not in the server tool registry and every
argument map, `call_tool` returns `\x7bsuccess: false, error: "Unknown tool:
<name>"\x7d` and never throws — on the MongoDB and PostgreSQL servers
provided the backend connection configuration is present (truthy URI/URL),
and on the Google server unconditionally; with the configuration absent the
MongoDB/PostgreSQL servers instead return their not-configured error. -/
theorem c2_unknown_tool_error :
    (∀ (b : MongoBackend) (env : McpEnv) (cfg u : JVal) (name : String)
        (args : List (String × JVal)),
      mongoUriOf cfg = .ok u → truthy u = true → name ∉ mongoToolNames →
      mongoCallTool b env cfg name args =
        .obj [("success", .bool false), ("error", .str ("Unknown tool: " ++ name))]) ∧
    (∀ (b : PgBackend) (env : McpEnv) (cfg u : JVal) (name : String)
        (args : List (String × JVal)),
      dbUrlOf cfg = .ok u → truthy u = true → name ∉ pgToolNames →
      pgCallTool b env cfg name args =
        .obj [("success", .bool false), ("error", .str ("Unknown tool: " ++ name))]) ∧
    (∀ (g : GoogleBackend) (cfg : JVal) (name : String) (args : List (String × JVal)),
      name ∉ googleToolNames →
      googleCallTool g cfg name args =
        .obj [("success", .bool false), ("error", .str ("Unknown tool: " ++ name))]) := by
  refine ⟨?_, ?_, ?_⟩
  · intro b env cfg u name args hcfg hu hn
    obtain ⟨h1, h2, h3, h4, h5, h6, h7, h8, h9, h10, h11⟩ :
        ¬(name = "list_databases") ∧ ¬(name = "list_collections") ∧
        ¬(name = "find_documents") ∧ ¬(name = "insert_document") ∧
        ¬(name = "insert_many_documents") ∧ ¬(name = "update_document") ∧
        ¬(name = "update_many_documents") ∧ ¬(name = "delete_document") ∧
        ¬(name = "delete_many_documents") ∧ ¬(name = "count_documents") ∧
        ¬(name = "aggregate") := by
      simpa [mongoToolNames, mongoListTools] using hn
    unfold mongoCallTool mongoCallToolBody
    rw [hcfg, exc_bind_ok_eval]
    rw [if_neg (show ¬((!truthy u) = true) by simp [hu])]
    rw [if_neg h1, if_neg h2, if_neg h3, if_neg h4, if_neg h5, if_neg h6,
        if_neg h7, if_neg h8, if_neg h9, if_neg h10, if_neg h11]
    rfl
  · intro b env cfg u name args hcfg hu hn
    obtain ⟨h1, h2, h3, h4, h5, h6⟩ :
        ¬(name = "execute_query") ∧ ¬(name = "execute_write") ∧
        ¬(name = "run_custom_sql") ∧ ¬(name = "list_tables") ∧
        ¬(name = "describe_table") ∧ ¬(name = "get_table_count") := by
      simpa [pgToolNames, pgListTools] using hn
    unfold pgCallTool pgCallToolBody
    rw [hcfg, exc_bind_ok_eval]
    rw [if_neg (show ¬((!truthy u) = true) by simp [hu])]
    rw [if_neg h1, if_neg h2, if_neg h3, if_neg h4, if_neg h5, if_neg h6]
    rfl
  · intro g cfg name args hn
    obtain ⟨h1, h2, h3, h4, h5, h6, h7, h8, h9, h10, h11, h12, h13⟩ :
        ¬(name = "read_sheet") ∧ ¬(name = "write_sheet") ∧
        ¬(name = "append_sheet") ∧ ¬(name = "get_sheet_info") ∧
        ¬(name = "list_emails") ∧ ¬(name = "get_email_detail") ∧
        ¬(name = "send_email") ∧ ¬(name = "search_emails") ∧
        ¬(name = "list_calendar_events") ∧ ¬(name = "create_calendar_event") ∧
        ¬(name = "update_calendar_event") ∧ ¬(name = "delete_calendar_event") ∧
        ¬(name = "get_calendar_event") := by
      simpa [googleToolNames, googleListTools] using hn
    unfold googleCallTool googleCallToolBody
    rw [if_neg h1, if_neg h2, if_neg h3, if_neg h4, if_neg h5, if_neg h6,
        if_neg h7, if_neg h8, if_neg h9, if_neg h10, if_neg h11, if_neg h12,
        if_neg h13]
    rfl

/-- C2 witness: the amended theorem applied to the concrete invocation
`call_tool("unknown_op", \x7b\x7d)` on each server with a configured backend. -/
theorem c2_unknown_tool_error_witness :
    mongoCallTool tbM env0 cfgMongo "unknown_op" [] =
      .obj [("success", .bool false), ("error", .str ("Unknown tool: " ++ "unknown_op"))] ∧
    pgCallTool tbPg env0 cfgPg "unknown_op" [] =
      .obj [("success", .bool false), ("error", .str ("Unknown tool: " ++ "unknown_op"))] ∧
    googleCallTool tbG cfgGoogle "unknown_op" [] =
      .obj [("success", .bool false), ("error", .str ("Unknown tool: " ++ "unknown_op"))] :=
  ⟨c2_unknown_tool_error.1 tbM env0 cfgMongo (.str "mongodb://localhost")
      "unknown_op" [] rfl rfl (by decide),
   c2_unknown_tool_error.2.1 tbPg env0 cfgPg (.str "postgresql://localhost/db")
      "unknown_op" [] rfl rfl (by decide),
   c2_unknown_tool_error.2.2 tbG cfgGoogle "unknown_op" [] (by decide)⟩

/-- C5: for optional parameters absent from the argument map, the dispatcher
supplies the declared defaults before invoking the backing function:
`find_documents` receives `limit=100, skip=0`, both update tools receive
`upsert=false`, and `list_emails` receives `maxResults=10, query=""`; the
last conjunct checks the `list_emails` descriptor declares those same
defaults. -/
theorem c5_dispatcher_supplies_defaults :
    (∀ (b : MongoBackend) (env : McpEnv) (cfg u : JVal) (args : List (String × JVal)),
      mongoUriOf cfg = .ok u → truthy u = true →
      args.lookup "limit" = none → args.lookup "skip" = none →
      mongoCallTool b env cfg "find_documents" args =
        Mongo.find_documents b u (argGet args "database_name")
          (argGet args "collection_name") (argGet args "query")
          (.num 100) (.num 0) (argGet args "sort")) ∧
    (∀ (b : MongoBackend) (env : McpEnv) (cfg u : JVal) (args : List (String × JVal)),
      mongoUriOf cfg = .ok u → truthy u = true →
      args.lookup "upsert" = none →
      mongoCallTool b env cfg "update_document" args =
        Mongo.update_document b u (argGet args "database_name")
          (argGet args "collection_name") (argGet args "filter_query")
          (argGet args "update_data") (.bool false)) ∧
    (∀ (b : MongoBackend) (env : McpEnv) (cfg u : JVal) (args : List (String × JVal)),
      mongoUriOf cfg = .ok u → truthy u = true →
      args.lookup "upsert" = none →
      mongoCallTool b env cfg "update_many_documents" args =
        Mongo.update_many_documents b u (argGet args "database_name")
          (argGet args "collection_name") (argGet args "filter_query")
          (argGet args "update_data") (.bool false)) ∧
    (∀ (g : GoogleBackend) (cfg : JVal) (args : List (String × JVal)),
      args.lookup "maxResults" = none → args.lookup "query" = none →
      googleCallTool g cfg "list_emails" args =
        Google.list_emails g (.num 10) (.str "")) ∧
    ((googleListTools.find? (fun t => t.name == "list_emails")).map
        (fun t => (schemaDefault t "maxResults", schemaDefault t "query"))
      = some (some (.num 10), some (.str ""))) := by
  refine ⟨?_, ?_, ?_, ?_, rfl⟩
  · intro b env cfg u args hcfg hu hl hs
    unfold mongoCallTool mongoCallToolBody
    rw [hcfg, exc_bind_ok_eval]
    rw [if_neg (show ¬((!truthy u) = true) by simp [hu])]
    rw [if_neg (by decide), if_neg (by decide), if_pos rfl]
    unfold argGetD
    rw [hl, hs]
    rfl
  · intro b env cfg u args hcfg hu hup
    unfold mongoCallTool mongoCallToolBody
    rw [hcfg, exc_bind_ok_eval]
    rw [if_neg (show ¬((!truthy u) = true) by simp [hu])]
    rw [if_neg (by decide), if_neg (by decide), if_neg (by decide),
        if_neg (by decide), if_neg (by decide), if_pos rfl]
    unfold argGetD
    rw [hup]
    rfl
  · intro b env cfg u args hcfg hu hup
    unfold mongoCallTool mongoCallToolBody
    rw [hcfg, exc_bind_ok_eval]
    rw [if_neg (show ¬((!truthy u) = true) by simp [hu])]
    rw [if_neg (by decide), if_neg (by decide), if_neg (by decide),
        if_neg (by decide), if_neg (by decide), if_neg (by decide), if_pos rfl]
    unfold argGetD
    rw [hup]
    rfl
  · intro g cfg args hm hq
    unfold googleCallTool googleCallToolBody
    rw [if_neg (by decide), if_neg (by decide), if_neg (by decide),
        if_neg (by decide), if_pos rfl]
    unfold argGetD
    rw [hm, hq]
    rfl

/-- C5 witness: concrete invocations with the optional parameters absent. -/
theorem c5_dispatcher_supplies_defaults_witness :
    (mongoCallTool tbM env0 cfgMongo "find_documents"
        [("database_name", .str "d"), ("collection_name", .str "c")] =
      Mongo.find_documents tbM (.str "mongodb://localhost") (.str "d") (.str "c")
        .null (.num 100) (.num 0) .null) ∧
    (mongoCallTool tbM env0 cfgMongo "update_document" [] =
      Mongo.update_document tbM (.str "mongodb://localhost") .null .null .null
        .null (.bool false)) ∧
    (mongoCallTool tbM env0 cfgMongo "update_many_documents" [] =
      Mongo.update_many_documents tbM (.str "mongodb://localhost") .null .null .null
        .null (.bool false)) ∧
    (googleCallTool tbG cfgGoogle "list_emails" [] =
      Google.list_emails tbG (.num 10) (.str "")) :=
  ⟨c5_dispatcher_supplies_defaults.1 tbM env0 cfgMongo (.str "mongodb://localhost")
      [("database_name", .str "d"), ("collection_name", .str "c")] rfl rfl rfl rfl,
   c5_dispatcher_supplies_defaults.2.1 tbM env0 cfgMongo (.str "mongodb://localhost")
      [] rfl rfl rfl,
   c5_dispatcher_supplies_defaults.2.2.1 tbM env0 cfgMongo (.str "mongodb://localhost")
      [] rfl rfl rfl,
   c5_dispatcher_supplies_defaults.2.2.2.1 tbG cfgGoogle [] rfl rfl⟩

/-- C6 counterexample: `find_documents` is a MongoDB backing operation whose
filter references the `_id` document key, yet (i) a string `_id` in its
parsed filter reaches the backend UNCONVERTED — the probe backend accepts
only the verbatim filter and the call succeeds — and (ii) a native ObjectId
in a stored document is rendered in the result payload as the mapping
`\x7b"$oid": <hex>\x7d`, which is not a plain string. -/
theorem c6_counterexample :
    getField (Mongo.find_documents
        (filterProbe (.obj [("_id", .str "64b0c1d2e3f4a5b6c7d8e9f0")]))
        (.str "m") (.str "d") (.str "c")
        (.obj [("_id", .str "64b0c1d2e3f4a5b6c7d8e9f0")]) (.num 100) (.num 0) .null)
      "success" = some (.bool true) ∧
    getField (Mongo.find_documents oidDocBackend (.str "m") (.str "d") (.str "c")
        .null (.num 100) (.num 0) .null) "documents"
      = some (.arr [.obj [("_id", .obj [("$oid", .str "64b0c1d2e3f4a5b6c7d8e9f0")])]]) ∧
    (JVal.obj [("$oid", .str "64b0c1d2e3f4a5b6c7d8e9f0")]
      ≠ .str "64b0c1d2e3f4a5b6c7d8e9f0") :=
  ⟨rfl, rfl, fun h => JVal.noConfusion h⟩

/-- C6 (amended): the update/delete operations convert a string `_id` in the
parsed filter to a native ObjectId before execution, while `find_documents`
passes its parsed filter to the backend unchanged; insert results render the
new identifier as a plain string via `str()`, whereas `find_documents`
serializes stored documents through `bson.json_util.dumps` + `json.loads`,
rendering an embedded ObjectId as the mapping `\x7b"$oid": <hex>\x7d`; every
such serialized payload is JSON-safe (mappings, sequences, strings, numbers,
booleans only). -/
theorem c6_identifier_normalization :
    (∀ (b : MongoBackend) (kvs : List (String × JVal)) (s : String),
      kvs.lookup "_id" = some (.str s) → b.oidOk s = true →
      Mongo.oidNormalize b (.obj kvs) = .ok (.obj (setKey kvs "_id" (.oid s)))) ∧
    (∀ (kvs : List (String × JVal)) (s : String),
      kvs.lookup "_id" = some (.str s) →
      getField (Mongo.update_document (filterProbe (.obj (setKey kvs "_id" (.oid s))))
        (.str "m") (.str "d") (.str "c") (.obj kvs)
        (.obj []) (.bool false)) "success"
        = some (.bool true)) ∧
    (∀ (kvs : List (String × JVal)) (s : String),
      kvs.lookup "_id" = some (.str s) →
      getField (Mongo.delete_document (filterProbe (.obj (setKey kvs "_id" (.oid s))))
        (.str "m") (.str "d") (.str "c") (.obj kvs)) "deleted_count"
        = some (.num 1)) ∧
    (∀ kvs : List (String × JVal),
      getField (Mongo.find_documents (filterProbe (.obj kvs)) (.str "m") (.str "d")
        (.str "c") (.obj kvs) (.num 100) (.num 0) .null) "success"
        = some (.bool true)) ∧
    (∀ (b : MongoBackend) (uri dbn coll skip limit : JVal) (docs : List JVal),
      b.connect uri = .ok () →
      b.find uri dbn coll (.obj []) none skip limit = .ok docs →
      getField (Mongo.find_documents b uri dbn coll .null limit skip .null) "documents"
        = some (.arr (extJsonList docs))) ∧
    (∀ v : JVal, jsonSafe (extJson v) = true) ∧
    (∀ s : String, extJson (.oid s) = .obj [("$oid", .str s)]) ∧
    (∀ (b : MongoBackend) (uri dbn coll : JVal) (s : String),
      b.connect uri = .ok () →
      b.insertOne uri dbn coll (.obj []) = .ok (.oid s) →
      getField (Mongo.insert_document b uri dbn coll (.obj [])) "inserted_id"
        = some (.str s)) := by
  refine ⟨?_, ?_, ?_, ?_, ?_, jsonSafe_extJson, fun s => rfl, ?_⟩
  · intro b kvs s h ho
    simp only [Mongo.oidNormalize, h]
    simp [Mongo.objectIdCtor, ho]
  · intro kvs s h
    have hnorm : Mongo.oidNormalize (filterProbe (.obj (setKey kvs "_id" (.oid s))))
        (.obj kvs) = .ok (.obj (setKey kvs "_id" (.oid s))) := by
      simp only [Mongo.oidNormalize, h]
      simp [Mongo.objectIdCtor, filterProbe, tbM]
    unfold Mongo.update_document Mongo.update_document_body
    rw [show Mongo.get_connection (filterProbe (.obj (setKey kvs "_id" (.oid s))))
          (.str "m") = .ok () from rfl, exc_bind_ok_eval]
    rw [show Mongo.parseDocArg (filterProbe (.obj (setKey kvs "_id" (.oid s)))).jloads
          (.obj kvs) = .ok (.obj kvs) from rfl, exc_bind_ok_eval]
    rw [show Mongo.parseDocArg (filterProbe (.obj (setKey kvs "_id" (.oid s)))).jloads
          (.obj ([] : List (String × JVal)))
          = .ok (.obj []) from rfl, exc_bind_ok_eval]
    rw [hnorm, exc_bind_ok_eval]
    rw [show Mongo.setWrap (.obj ([] : List (String × JVal)))
          = .ok (.obj [("$set", .obj [])]) from rfl, exc_bind_ok_eval]
    rw [show (filterProbe (.obj (setKey kvs "_id" (.oid s)))).updateOne (.str "m")
          (.str "d") (.str "c") (.obj (setKey kvs "_id" (.oid s)))
          (.obj [("$set", .obj [])]) (.bool false)
          = .ok ⟨1, 1, none⟩ from by simp [filterProbe, JVal.beq_refl], exc_bind_ok_eval]
    rfl
  · intro kvs s h
    have hnorm : Mongo.oidNormalize (filterProbe (.obj (setKey kvs "_id" (.oid s))))
        (.obj kvs) = .ok (.obj (setKey kvs "_id" (.oid s))) := by
      simp only [Mongo.oidNormalize, h]
      simp [Mongo.objectIdCtor, filterProbe, tbM]
    unfold Mongo.delete_document Mongo.delete_document_body
    rw [show Mongo.get_connection (filterProbe (.obj (setKey kvs "_id" (.oid s))))
          (.str "m") = .ok () from rfl, exc_bind_ok_eval]
    rw [show Mongo.parseDocArg (filterProbe (.obj (setKey kvs "_id" (.oid s)))).jloads
          (.obj kvs) = .ok (.obj kvs) from rfl, exc_bind_ok_eval]
    rw [hnorm, exc_bind_ok_eval]
    rw [show (filterProbe (.obj (setKey kvs "_id" (.oid s)))).deleteOne (.str "m")
          (.str "d") (.str "c") (.obj (setKey kvs "_id" (.oid s)))
          = .ok 1 from by simp [filterProbe, JVal.beq_refl], exc_bind_ok_eval]
    rfl
  · intro kvs
    unfold Mongo.find_documents Mongo.find_documents_body
    rw [show Mongo.get_connection (filterProbe (.obj kvs)) (.str "m")
          = .ok () from rfl, exc_bind_ok_eval]
    rw [show Mongo.parseQueryArg (filterProbe (.obj kvs)).jloads (.obj kvs)
          = .ok (.obj kvs) from rfl, exc_bind_ok_eval]
    rw [show Mongo.parseSortArg (filterProbe (.obj kvs)).jloads .null
          = .ok .null from rfl, exc_bind_ok_eval]
    rw [show (filterProbe (.obj kvs)).find (.str "m") (.str "d") (.str "c")
          (.obj kvs) (Mongo.sortSpec .null) (.num 0) (.num 100)
          = .ok [] from by simp [filterProbe, JVal.beq_refl], exc_bind_ok_eval]
    rfl
  · intro b uri dbn coll skip limit docs hc hf
    have hgc : Mongo.get_connection b uri = .ok () := by
      unfold Mongo.get_connection; rw [hc]
    unfold Mongo.find_documents Mongo.find_documents_body
    rw [hgc, exc_bind_ok_eval]
    rw [show Mongo.parseQueryArg b.jloads .null = .ok (.obj []) from rfl,
        exc_bind_ok_eval]
    rw [show Mongo.parseSortArg b.jloads .null = .ok .null from rfl, exc_bind_ok_eval]
    rw [show Mongo.sortSpec .null = none from rfl, hf, exc_bind_ok_eval]
    rfl
  · intro b uri dbn coll s hc hi
    have hgc : Mongo.get_connection b uri = .ok () := by
      unfold Mongo.get_connection; rw [hc]
    unfold Mongo.insert_document Mongo.insert_document_body
    rw [hgc, exc_bind_ok_eval]
    rw [show Mongo.parseDocArg b.jloads (.obj []) = .ok (.obj []) from rfl,
        exc_bind_ok_eval]
    rw [hi, exc_bind_ok_eval]
    rfl

/-- C6 witness: the amended theorem at concrete inputs — a filter with a
string `_id`, a stored document with a native ObjectId `_id`, and an insert
returning a native ObjectId. -/
theorem c6_identifier_normalization_witness :
    Mongo.oidNormalize tbM (.obj [("_id", .str "64b0c1d2e3f4a5b6c7d8e9f0")])
      = .ok (.obj [("_id", .oid "64b0c1d2e3f4a5b6c7d8e9f0")]) ∧
    getField (Mongo.update_document (filterProbe (.obj [("_id", .oid "64b0c1d2e3f4a5b6c7d8e9f0")]))
        (.str "m") (.str "d") (.str "c") (.obj [("_id", .str "64b0c1d2e3f4a5b6c7d8e9f0")])
        (.obj []) (.bool false)) "success"
      = some (.bool true) ∧
    getField (Mongo.find_documents oidDocBackend (.str "m") (.str "d") (.str "c")
        .null (.num 100) (.num 0) .null) "documents"
      = some (.arr [.obj [("_id", .obj [("$oid", .str "64b0c1d2e3f4a5b6c7d8e9f0")])]]) ∧
    getField (Mongo.insert_document tbM (.str "m") (.str "d") (.str "c") (.obj []))
        "inserted_id" = some (.str "6543210987abcdef01234567") :=
  ⟨c6_identifier_normalization.1 tbM [("_id", .str "64b0c1d2e3f4a5b6c7d8e9f0")]
      "64b0c1d2e3f4a5b6c7d8e9f0" rfl rfl,
   c6_identifier_normalization.2.1 [("_id", .str "64b0c1d2e3f4a5b6c7d8e9f0")]
      "64b0c1d2e3f4a5b6c7d8e9f0" rfl,
   c6_identifier_normalization.2.2.2.2.1 oidDocBackend (.str "m") (.str "d") (.str "c")
      (.num 0) (.num 100) [.obj [("_id", .oid "64b0c1d2e3f4a5b6c7d8e9f0")]] rfl rfl,
   c6_identifier_normalization.2.2.2.2.2.2.2 tbM (.str "m") (.str "d") (.str "c")
      "6543210987abcdef01234567" rfl rfl⟩

/-- C7: a lookup matching zero records is a success, not an error:
`find_documents` over a backend returning no documents yields
`success: true, documents: [], count: 0`; `call_tool("list_tables")`
against a configured database with zero user tables returns exactly
`\x7bsuccess: true, tables: [], count: 0\x7d`; and in both operations the
returned `count` always equals the length of the returned list. -/
theorem c7_zero_match_is_success :
    (∀ (b : MongoBackend) (uri dbn coll skip limit : JVal),
      b.connect uri = .ok () →
      b.find uri dbn coll (.obj []) none skip limit = .ok [] →
      getField (Mongo.find_documents b uri dbn coll .null limit skip .null) "success"
        = some (.bool true) ∧
      getField (Mongo.find_documents b uri dbn coll .null limit skip .null) "documents"
        = some (.arr []) ∧
      getField (Mongo.find_documents b uri dbn coll .null limit skip .null) "count"
        = some (.num 0)) ∧
    (∀ (b : PgBackend) (env : McpEnv) (cfg u : JVal) (args : List (String × JVal)),
      dbUrlOf cfg = .ok u → truthy u = true →
      b.connect u = .ok () → b.listTablesRows u = .ok [] →
      pgCallTool b env cfg "list_tables" args =
        .obj [("success", .bool true), ("tables", .arr []), ("count", .num 0)]) ∧
    (∀ (b : MongoBackend) (uri dbn coll skip limit : JVal) (docs : List JVal),
      b.connect uri = .ok () →
      b.find uri dbn coll (.obj []) none skip limit = .ok docs →
      getField (Mongo.find_documents b uri dbn coll .null limit skip .null) "count"
        = some (.num (extJsonList docs).length) ∧
      getField (Mongo.find_documents b uri dbn coll .null limit skip .null) "documents"
        = some (.arr (extJsonList docs)) ∧
      (extJsonList docs).length = docs.length) ∧
    (∀ (b : PgBackend) (url : JVal) (ts : List JVal),
      b.connect url = .ok () → b.listTablesRows url = .ok ts →
      getField (Pg.list_tables b url) "tables" = some (.arr ts) ∧
      getField (Pg.list_tables b url) "count" = some (.num ts.length)) := by
  refine ⟨?_, ?_, ?_, ?_⟩
  · intro b uri dbn coll skip limit hc hf
    have hgc : Mongo.get_connection b uri = .ok () := by
      unfold Mongo.get_connection; rw [hc]
    unfold Mongo.find_documents Mongo.find_documents_body
    rw [hgc, exc_bind_ok_eval]
    rw [show Mongo.parseQueryArg b.jloads .null = .ok (.obj []) from rfl,
        exc_bind_ok_eval]
    rw [show Mongo.parseSortArg b.jloads .null = .ok .null from rfl, exc_bind_ok_eval]
    rw [show Mongo.sortSpec .null = none from rfl, hf, exc_bind_ok_eval]
    exact ⟨rfl, rfl, rfl⟩
  · intro b env cfg u args hcfg hu hc hrows
    have hgc : Pg.get_connection b u = .ok () := by
      unfold Pg.get_connection; rw [hc]
    have hlist : Pg.list_tables b u =
        .obj [("success", .bool true), ("tables", .arr []), ("count", .num 0)] := by
      unfold Pg.list_tables Pg.list_tables_body
      rw [hgc, exc_bind_ok_eval, hrows, exc_bind_ok_eval]
      rfl
    unfold pgCallTool pgCallToolBody
    rw [hcfg, exc_bind_ok_eval]
    rw [if_neg (show ¬((!truthy u) = true) by simp [hu])]
    rw [if_neg (by decide), if_neg (by decide), if_neg (by decide), if_pos rfl]
    exact hlist
  · intro b uri dbn coll skip limit docs hc hf
    have hgc : Mongo.get_connection b uri = .ok () := by
      unfold Mongo.get_connection; rw [hc]
    unfold Mongo.find_documents Mongo.find_documents_body
    rw [hgc, exc_bind_ok_eval]
    rw [show Mongo.parseQueryArg b.jloads .null = .ok (.obj []) from rfl,
        exc_bind_ok_eval]
    rw [show Mongo.parseSortArg b.jloads .null = .ok .null from rfl, exc_bind_ok_eval]
    rw [show Mongo.sortSpec .null = none from rfl, hf, exc_bind_ok_eval]
    exact ⟨rfl, rfl, extJsonList_length docs⟩
  · intro b url ts hc hrows
    have hgc : Pg.get_connection b url = .ok () := by
      unfold Pg.get_connection; rw [hc]
    unfold Pg.list_tables Pg.list_tables_body
    rw [hgc, exc_bind_ok_eval, hrows, exc_bind_ok_eval]
    exact ⟨rfl, rfl⟩

/-- C7 witness: the theorem at the concrete empty backends. -/
theorem c7_zero_match_is_success_witness :
    (getField (Mongo.find_documents tbM (.str "m") (.str "d") (.str "c")
        .null (.num 100) (.num 0) .null) "success" = some (.bool true) ∧
     getField (Mongo.find_documents tbM (.str "m") (.str "d") (.str "c")
        .null (.num 100) (.num 0) .null) "documents" = some (.arr []) ∧
     getField (Mongo.find_documents tbM (.str "m") (.str "d") (.str "c")
        .null (.num 100) (.num 0) .null) "count" = some (.num 0)) ∧
    pgCallTool tbPg env0 cfgPg "list_tables" [] =
      .obj [("success", .bool true), ("tables", .arr []), ("count", .num 0)] :=
  ⟨c7_zero_match_is_success.1 tbM (.str "m") (.str "d") (.str "c")
      (.num 0) (.num 100) rfl rfl,
   c7_zero_match_is_success.2.1 tbPg env0 cfgPg (.str "postgresql://localhost/db")
      [] rfl rfl rfl rfl⟩

/-- C8: `call_tool("count_documents", \x7bdatabase_name, collection_name\x7d)`
with the optional `query` absent (or the empty string) counts with the empty
filter `\x7b\x7d`; over an empty collection the result has `success: true`
and `count: 0`, and in general the `count` field equals the backend count of
documents matching the filter. -/
theorem c8_count_documents_empty_collection :
    (∀ (b : MongoBackend) (env : McpEnv) (cfg u : JVal) (dbn coll : String)
        (args : List (String × JVal)),
      mongoUriOf cfg = .ok u → truthy u = true →
      args.lookup "database_name" = some (.str dbn) →
      args.lookup "collection_name" = some (.str coll) →
      args.lookup "query" = none →
      b.connect u = .ok () →
      b.count u (.str dbn) (.str coll) (.obj []) = .ok 0 →
      getField (mongoCallTool b env cfg "count_documents" args) "success"
        = some (.bool true) ∧
      getField (mongoCallTool b env cfg "count_documents" args) "count"
        = some (.num 0)) ∧
    (∀ (b : MongoBackend) (env : McpEnv) (cfg u : JVal) (dbn coll : String)
        (args : List (String × JVal)),
      mongoUriOf cfg = .ok u → truthy u = true →
      args.lookup "database_name" = some (.str dbn) →
      args.lookup "collection_name" = some (.str coll) →
      args.lookup "query" = some (.str "") →
      b.connect u = .ok () →
      b.count u (.str dbn) (.str coll) (.obj []) = .ok 0 →
      getField (mongoCallTool b env cfg "count_documents" args) "success"
        = some (.bool true) ∧
      getField (mongoCallTool b env cfg "count_documents" args) "count"
        = some (.num 0)) ∧
    (∀ (b : MongoBackend) (uri dbn coll query q : JVal) (n : Int),
      b.connect uri = .ok () →
      Mongo.parseQueryArg b.jloads query = .ok q →
      b.count uri dbn coll q = .ok n →
      getField (Mongo.count_documents b uri dbn coll query) "count" = some (.num n) ∧
      getField (Mongo.count_documents b uri dbn coll query) "success"
        = some (.bool true)) := by
  refine ⟨?_, ?_, ?_⟩
  · intro b env cfg u dbn coll args hcfg hu hdb hcol hq hc hcount
    have hgc : Mongo.get_connection b u = .ok () := by
      unfold Mongo.get_connection; rw [hc]
    have hdisp : mongoCallTool b env cfg "count_documents" args =
        Mongo.count_documents b u (.str dbn) (.str coll) .null := by
      unfold mongoCallTool mongoCallToolBody
      rw [hcfg, exc_bind_ok_eval]
      rw [if_neg (show ¬((!truthy u) = true) by simp [hu])]
      rw [if_neg (by decide), if_neg (by decide), if_neg (by decide),
          if_neg (by decide), if_neg (by decide), if_neg (by decide),
          if_neg (by decide), if_neg (by decide), if_neg (by decide), if_pos rfl]
      unfold argGet
      rw [hdb, hcol, hq]
      rfl
    rw [hdisp]
    unfold Mongo.count_documents Mongo.count_documents_body
    rw [hgc, exc_bind_ok_eval]
    rw [show Mongo.parseQueryArg b.jloads .null = .ok (.obj []) from rfl,
        exc_bind_ok_eval]
    rw [hcount, exc_bind_ok_eval]
    exact ⟨rfl, rfl⟩
  · intro b env cfg u dbn coll args hcfg hu hdb hcol hq hc hcount
    have hgc : Mongo.get_connection b u = .ok () := by
      unfold Mongo.get_connection; rw [hc]
    have hdisp : mongoCallTool b env cfg "count_documents" args =
        Mongo.count_documents b u (.str dbn) (.str coll) (.str "") := by
      unfold mongoCallTool mongoCallToolBody
      rw [hcfg, exc_bind_ok_eval]
      rw [if_neg (show ¬((!truthy u) = true) by simp [hu])]
      rw [if_neg (by decide), if_neg (by decide), if_neg (by decide),
          if_neg (by decide), if_neg (by decide), if_neg (by decide),
          if_neg (by decide), if_neg (by decide), if_neg (by decide), if_pos rfl]
      unfold argGet
      rw [hdb, hcol, hq]
      rfl
    rw [hdisp]
    unfold Mongo.count_documents Mongo.count_documents_body
    rw [hgc, exc_bind_ok_eval]
    rw [show Mongo.parseQueryArg b.jloads (.str "") = .ok (.obj []) from rfl,
        exc_bind_ok_eval]
    rw [hcount, exc_bind_ok_eval]
    exact ⟨rfl, rfl⟩
  · intro b uri dbn coll query q n hc hparse hcount
    have hgc : Mongo.get_connection b uri = .ok () := by
      unfold Mongo.get_connection; rw [hc]
    unfold Mongo.count_documents Mongo.count_documents_body
    rw [hgc, exc_bind_ok_eval, hparse, exc_bind_ok_eval, hcount, exc_bind_ok_eval]
    exact ⟨rfl, rfl⟩

/-- C8 witness: the concrete scenario
`call_tool("count_documents", \x7bdatabase_name: "d", collection_name: "c"\x7d)`
against a configured server and an empty collection. -/
theorem c8_count_documents_empty_collection_witness :
    getField (mongoCallTool tbM env0 cfgMongo "count_documents"
        [("database_name", .str "d"), ("collection_name", .str "c")]) "success"
      = some (.bool true) ∧
    getField (mongoCallTool tbM env0 cfgMongo "count_documents"
        [("database_name", .str "d"), ("collection_name", .str "c")]) "count"
      = some (.num 0) :=
  c8_count_documents_empty_collection.1 tbM env0 cfgMongo (.str "mongodb://localhost")
    "d" "c" [("database_name", .str "d"), ("collection_name", .str "c")]
    rfl rfl rfl rfl rfl rfl rfl
